import Mathlib

/-!
Verification of the DeepFlow agent eBPF socket tracer
(`agent/src/ebpf/kernel/socket_trace.c`), modelled as a shallow embedding.

Kernel maps are modelled as follows: BPF hash maps (`socket_info_map`,
`trace_map`, `active_write_args_map`, `active_read_args_map`) become
functions `Nat -> Option value`; BPF per-cpu array maps of size one
(`trace_uid_map`, `trace_stats_map`, `members_offset`, `data_buf`) are
total (a `bpf_map_lookup_elem` with an in-bounds key on an array map never
fails, so the C NULL checks on them are dead).  Machine integers are `Nat`
with explicit `% 2 ^ w` at the points where the C code can wrap
(`u64` counters, `u32` tcp sequence arithmetic, bitfield stores).
Reads of kernel memory (`bpf_probe_read`, fd -> sock resolution, the
protocol recognizers of `protocol_inference.h`, `get_go_version` of
`uprobe_base_bpf.c`) are oracle inputs carried by environment structures.
The embedding follows the `#ifndef BPF_USE_CORE` build of the source.
-/

/-! ### Constants of the kernel ABI and of socket_trace.c -/

def PF_UNIX : Nat := 1
def PF_INET : Nat := 2
def PF_INET6 : Nat := 10
def SOCK_STREAM : Nat := 1
def SOCK_DGRAM : Nat := 2
def IPPROTO_TCP : Nat := 6
def IPPROTO_UDP : Nat := 17
def TCP_ESTABLISHED : Nat := 1
def TCP_CLOSE_WAIT : Nat := 8

/-- `TCPF_ESTABLISHED = 1 << TCP_ESTABLISHED`. -/
def TCPF_ESTABLISHED : Nat := 1 <<< TCP_ESTABLISHED

/-- `TCPF_CLOSE_WAIT = 1 << TCP_CLOSE_WAIT`. -/
def TCPF_CLOSE_WAIT : Nat := 1 <<< TCP_CLOSE_WAIT

def NS_PER_US : Nat := 1000
def NS_PER_SEC : Nat := 1000000000
def EVENT_BURST_NUM : Nat := 16
def OFFSET_READY : Nat := 1
def OFFSET_NO_READY : Nat := 0
def T_EGRESS : Nat := 0
def T_INGRESS : Nat := 1

/-- Modelled from the spec: message classes returned by the L7 recognizers,
`{REQ, RESP, UNKNOWN, PRESTORE, RECONFIRM, CLEAR}` (section 4.4); the first
three codes 0, 1, 2 are documented in `socket_trace_common.h`, the enum
itself lives in the missing `socket_trace.h`. -/
def MSG_UNKNOWN : Nat := 0
def MSG_REQUEST : Nat := 1
def MSG_RESPONSE : Nat := 2
def MSG_PRESTORE : Nat := 3
def MSG_RECONFIRM : Nat := 4
def MSG_CLEAR : Nat := 5

/-- Modelled from the spec: L7 protocol tags (section 4.4); only
`PROTO_UNKNOWN = 0` and the distinctness of the tags matter here. -/
def PROTO_UNKNOWN : Nat := 0
def PROTO_HTTP1 : Nat := 20
def PROTO_GO_TLS_HTTP1 : Nat := 21

def ROLE_UNKNOWN : Nat := 0

def CAP_DATA_SIZE : Nat := 1024

/-- `offsetof(struct __socket_data, data)`: the packed header of
`struct __socket_data` (socket_trace_common.h) is
4+4+8+16 (pid, tgid, coroutine_id, comm) + 8 (socket_id)
+ 38 (tuple: 16+16+1+1+2+2) + 4+4 (extra_data, extra_data_count)
+ 4+8 (tcp_seq, thread_trace_id) + 8+1 (timestamp, direction/msg_type bits)
+ 8+8 (syscall_len, data_seq) + 2+2 (data_type, data_len) = 127 bytes. -/
def SOCKET_DATA_HEADER_SIZE : Nat := 127

/-- `sizeof(struct __socket_data)`. -/
def SOCKET_DATA_SIZE : Nat := SOCKET_DATA_HEADER_SIZE + CAP_DATA_SIZE

/-- `sizeof(((struct __socket_data_buffer *)0)->data)`. -/
def SOCKET_BUFFER_DATA_SIZE : Nat := 32760

/-- One beyond the largest `u64`. -/
def U64 : Nat := 2 ^ 64

/-! ### Data model (socket_trace_common.h) -/

/-- `struct socket_info_t`.  `seq` is a 56-bit bitfield, `direction` 1 bit,
`msg_type` 2 bits, `role` 5 bits, `l7_proto` 8 bits: stores into these
fields truncate accordingly.  `prev_data[4]` is kept as the `u32` view the
code itself uses (`*(__u32 *)sk_info.prev_data`). -/
structure socket_info_t where
  l7_proto : Nat
  seq : Nat
  prev_data : Nat
  direction : Nat
  msg_type : Nat
  role : Nat
  need_reconfirm : Bool
  correlation_id : Int
  peer_fd : Nat
  update_time : Nat
  prev_data_len : Nat
  trace_id : Nat
  uid : Nat
deriving DecidableEq

/-- The all-zero `struct socket_info_t sk_info = { 0 }`. -/
def socket_info_zero : socket_info_t :=
  { l7_proto := 0, seq := 0, prev_data := 0, direction := 0, msg_type := 0,
    role := 0, need_reconfirm := false, correlation_id := 0, peer_fd := 0,
    update_time := 0, prev_data_len := 0, trace_id := 0, uid := 0 }

/-- `struct trace_info_t`. -/
structure trace_info_t where
  update_time : Nat
  peer_fd : Nat
  thread_trace_id : Nat
  socket_id : Nat
deriving DecidableEq

/-- `struct trace_uid_t`. -/
structure trace_uid_t where
  socket_id : Nat
  coroutine_trace_id : Nat
  thread_trace_id : Nat
deriving DecidableEq

/-- `struct trace_stats`. -/
structure trace_stats where
  socket_map_count : Nat
  trace_map_count : Nat
deriving DecidableEq

/-- `struct member_fields_offset` (the fields socket_trace.c uses). -/
structure member_fields_offset where
  ready : Nat
  task__files_offset : Nat
  sock__flags_offset : Nat
  tcp_sock__copied_seq_offset : Nat
  tcp_sock__write_seq_offset : Nat
deriving DecidableEq

/-- The fields of `struct sock` that `is_tcp_udp_data` reads through
`bpf_probe_read` (family, ipv6only bit, type bitfield, `skc_state`). -/
structure sock_fields where
  skc_family : Nat
  skc_ipv6only : Nat
  sk_type : Nat
  skc_state : Nat
deriving DecidableEq

/-- `struct conn_info_t` (socket_trace.h, reconstructed from every use in
socket_trace.c).  The `struct sock *sk` pointer is abstracted to its
non-NULL-ness; `prev_buf[4]` is the `u32` view used by the code. -/
structure conn_info_t where
  skc_family : Nat
  skc_ipv6only : Nat
  sk_type : Nat
  l4_protocol : Nat
  dport : Nat
  sport : Nat
  prev_count : Nat
  prev_buf : Nat
  direction : Nat
  need_reconfirm : Bool
  correlation_id : Int
  fd : Nat
  role : Nat
  sk_nonnull : Bool
  socket_info_ptr : Option socket_info_t
  keep_data_seq : Bool
  protocol : Nat
  message_type : Nat
deriving DecidableEq

/-- `struct __socket_data` as filled by `data_submit` (payload bytes are
kept only as their length `data_len`; the address bytes copied by
`get_socket_info` are kernel-memory reads, kept as `addr_len`). -/
structure socket_data where
  pid : Nat
  tgid : Nat
  coroutine_id : Nat
  socket_id : Nat
  addr_len : Nat
  l4_protocol : Nat
  dport : Nat
  sport : Nat
  extra_data : Nat
  extra_data_count : Nat
  tcp_seq : Nat
  thread_trace_id : Nat
  timestamp : Nat
  direction : Nat
  msg_type : Nat
  syscall_len : Nat
  data_seq : Nat
  data_type : Nat
  data_len : Nat
deriving DecidableEq

/-- `struct __socket_data_buffer` (the per-cpu staging buffer); the raw
`data[32760]` area is modelled as the list of complete records it holds
together with the byte length `len`. -/
structure socket_data_buffer where
  events_num : Nat
  len : Nat
  recs : List socket_data
deriving DecidableEq

/-- `struct data_args_t` (socket_trace.h): the stashed syscall arguments.
The `buf`/`iov` user pointers are abstracted to their NULL-ness, the
`msg_len` pointer read happens at exit time and is an oracle. -/
structure data_args_t where
  source_fn : Nat
  fd : Int
  buf_null : Bool
  iov_null : Bool
  iovlen : Int
  enter_ts : Nat
deriving DecidableEq

/-- `struct process_data_extra` (socket_trace.h), fields as used by
socket_trace.c. -/
structure process_data_extra where
  vecs : Bool
  use_tcp_seq : Bool
  tcp_seq : Nat
  coroutine_id : Nat
  go : Bool
  tls : Bool
deriving DecidableEq

/-- The whole kernel-side state the socket tracer owns. -/
structure kern_state where
  socket_info_map : Nat → Option socket_info_t
  trace_map : Nat → Option trace_info_t
  trace_uid : trace_uid_t
  stats : trace_stats
  buf : socket_data_buffer
  offset : member_fields_offset

/-! ### Map helpers -/

/-- `bpf_map_update_elem` on a hash map. -/
def map_update {α : Type} (m : Nat → Option α) (k : Nat) (v : α) :
    Nat → Option α :=
  fun x => if x = k then some v else m x

/-- `bpf_map_delete_elem` on a hash map. -/
def map_delete {α : Type} (m : Nat → Option α) (k : Nat) :
    Nat → Option α :=
  fun x => if x = k then none else m x

/-! ### Helpers from socket_trace.h (not among the provided sources) -/

/-- Modelled from the spec: `gen_conn_key_id` of the missing
`socket_trace.h`; section 3 defines the session key as
`conn_key = (tgid << 32) | fd`. -/
def gen_conn_key_id (param_1 param_2 : Nat) : Nat :=
  (param_1 <<< 32) ||| param_2

/-- Modelled from the spec: `is_socket_info_valid` of the missing
`socket_trace.h`.  The spec treats `uid` as the durable session identity
(section 3); entries whose `uid` is 0 (the `PRESTORE` stash and the
speculative entries of `sys_exit_socket`) are not yet sessions, so a
`socket_info_t` pointer is valid when it is non-NULL and `uid != 0`. -/
def is_socket_info_valid : Option socket_info_t → Bool
  | some s => decide (s.uid ≠ 0)
  | none => false

/-- The user-space seeding of the per-cpu `trace_uid_map`
(`running_socket_tracer`, src/agent/src/ebpf/user/symbol.c lines
1164-1172): `uid_base = (gettime(CLOCK_REALTIME, TIME_TYPE_NAN) / 100) &
0xffffffffffffffULL`, then each cpu's `socket_id` counter starts at
`(uint64_t) cpu << 56 | uid_base`. -/
def trace_uid_seed (cpu_id time_ns : Nat) : Nat :=
  (cpu_id <<< 56) ||| ((time_ns / 100) &&& 0xffffffffffffff)

/-- `delete_socket_info` (socket_trace.c).  `trace_stats_map` is a per-cpu
array, so its lookup is total. -/
def delete_socket_info (m : Nat → Option socket_info_t) (stats : trace_stats)
    (conn_key : Nat) (socket_info_ptr : Option socket_info_t) :
    (Nat → Option socket_info_t) × trace_stats :=
  match socket_info_ptr with
  | none => (m, stats)
  | some _ =>
    (map_delete m conn_key,
     { stats with socket_map_count := (stats.socket_map_count + U64 - 1) % U64 })

/-! ### Socket classification: is_tcp_udp_data -/

inductive sock_check where
  | error
  | udp
  | tcp_es
deriving DecidableEq

/-- The result of `is_tcp_udp_data` together with the `conn_info` fields
it writes (`skc_family` possibly rewritten, `sk_type`,
`tuple.l4_protocol`). -/
structure tcp_udp_result where
  check : sock_check
  skc_family : Nat
  sk_type : Nat
  l4_protocol : Nat
deriving DecidableEq

/-- The `u32` value of the C expression `~(TCPF_ESTABLISHED | TCPF_CLOSE_WAIT)`. -/
def tcp_state_reject_mask : Nat :=
  (2 ^ 32 - 1) - (TCPF_ESTABLISHED ||| TCPF_CLOSE_WAIT)

/-- `is_tcp_udp_data` (socket_trace.c lines 170-243, non-CO-RE build). -/
def is_tcp_udp_data (sf : sock_fields) : tcp_udp_result :=
  if sf.skc_family = PF_INET ∨ sf.skc_family = PF_INET6 then
    let fam :=
      if sf.skc_family = PF_INET6 ∧ sf.skc_ipv6only = 0 then PF_INET
      else sf.skc_family
    if sf.sk_type = SOCK_DGRAM then
      { check := sock_check.udp, skc_family := fam, sk_type := sf.sk_type,
        l4_protocol := IPPROTO_UDP }
    else if sf.sk_type ≠ SOCK_STREAM then
      { check := sock_check.error, skc_family := fam, sk_type := sf.sk_type,
        l4_protocol := 0 }
    else if ((1 <<< sf.skc_state) % 2 ^ 32) &&& tcp_state_reject_mask ≠ 0 then
      { check := sock_check.error, skc_family := fam, sk_type := sf.sk_type,
        l4_protocol := 0 }
    else
      { check := sock_check.tcp_es, skc_family := fam, sk_type := sf.sk_type,
        l4_protocol := IPPROTO_TCP }
  else
    { check := sock_check.error, skc_family := sf.skc_family,
      sk_type := sf.sk_type, l4_protocol := 0 }

/-- `get_socket_info` (socket_trace.c lines 278-328) reduced to its
success condition: it fails on a NULL sock and on a family other than
`PF_INET`/`PF_INET6`; the address bytes it copies are kernel memory and
are summarized by `addr_len`. -/
def get_socket_info_ok (conn : conn_info_t) : Bool :=
  conn.sk_nonnull &&
    (decide (conn.skc_family = PF_INET) || decide (conn.skc_family = PF_INET6))

/-! ### trace_process -/

/-- What `trace_process` returns / writes through its pointers: the updated
`conn_info->keep_data_seq`, the `*thread_trace_id` out-parameter, the updated
`trace_map`, `trace_uid->thread_trace_id` and
`trace_stats->trace_map_count`. -/
structure trace_process_result where
  keep_data_seq : Bool
  thread_trace_id : Nat
  trace_map : Nat → Option trace_info_t
  uid_thread_trace_id : Nat
  trace_map_count : Nat

/-- `trace_process` (socket_trace.c lines 531-623).  `thread_trace_id` is
the value of the caller's out-variable on entry (0 in `data_submit`). -/
def trace_process (socket_info_ptr : Option socket_info_t)
    (conn : conn_info_t) (socket_id pid_tgid : Nat)
    (trace_info_ptr : Option trace_info_t) (trace_uid : trace_uid_t)
    (stats : trace_stats) (thread_trace_id : Nat) (time_stamp : Nat)
    (trace_map : Nat → Option trace_info_t) : trace_process_result :=
  -- the "same direction / same message type" burst condition
  let matched : Bool :=
    match socket_info_ptr with
    | some s =>
      is_socket_info_valid (some s) &&
        (decide (conn.direction = s.direction) &&
         decide (conn.message_type = s.msg_type))
    | none => false
  let pre_trace_id : Nat :=
    if matched then
      match trace_info_ptr with
      | some ti => ti.thread_trace_id
      | none => 0
    else 0
  let keep : Bool := if matched then true else conn.keep_data_seq
  if conn.direction = T_INGRESS then
    let alloc : Bool := decide (pre_trace_id = 0)
    let uid_ttid :=
      if alloc then (trace_uid.thread_trace_id + 1) % U64
      else trace_uid.thread_trace_id
    let tid := if alloc then uid_ttid else pre_trace_id
    let peer_fd :=
      if conn.message_type = MSG_REQUEST then conn.fd
      else if conn.message_type = MSG_RESPONSE then
        match socket_info_ptr with
        | some s =>
          if is_socket_info_valid (some s) && decide (s.peer_fd ≠ 0) then
            s.peer_fd
          else 0
        | none => 0
      else 0
    let ti : trace_info_t :=
      { update_time := time_stamp / NS_PER_SEC, peer_fd := peer_fd,
        thread_trace_id := tid, socket_id := socket_id }
    { keep_data_seq := keep, thread_trace_id := tid,
      trace_map := map_update trace_map pid_tgid ti,
      uid_thread_trace_id := uid_ttid,
      trace_map_count :=
        if trace_info_ptr = none then (stats.trace_map_count + 1) % U64
        else stats.trace_map_count }
  else
    match trace_info_ptr with
    | some ti =>
      { keep_data_seq := keep,
        thread_trace_id :=
          if socket_id ≠ ti.socket_id then ti.thread_trace_id else 0,
        trace_map := map_delete trace_map pid_tgid,
        uid_thread_trace_id := trace_uid.thread_trace_id,
        trace_map_count := (stats.trace_map_count + U64 - 1) % U64 }
    | none =>
      { keep_data_seq := keep, thread_trace_id := thread_trace_id,
        trace_map := map_delete trace_map pid_tgid,
        uid_thread_trace_id := trace_uid.thread_trace_id,
        trace_map_count := stats.trace_map_count }

/-! ### iovecs_copy -/

/-- The unrolled loop of `iovecs_copy` (fuel is `LOOP_LIMIT = 12`); the
iovec list carries the `iov_len` of each `struct iovec` the probe reads. -/
def iovecs_copy_loop : Nat → List Nat → Nat → Nat → Nat → Nat
  | 0, _, _, _, bytes_sent => bytes_sent
  | _ + 1, [], _, _, bytes_sent => bytes_sent
  | fuel + 1, l :: ls, total_size, vbuff_len, bytes_sent =>
    if bytes_sent < total_size then
      let bytes_remaining := total_size - bytes_sent
      let iov_size := if l < bytes_remaining then l else bytes_remaining
      let len := vbuff_len + SOCKET_DATA_HEADER_SIZE + bytes_sent
      if len > SOCKET_BUFFER_DATA_SIZE - CAP_DATA_SIZE then bytes_sent
      else
        let iov_size2 :=
          if iov_size ≥ CAP_DATA_SIZE then CAP_DATA_SIZE
          else iov_size &&& (CAP_DATA_SIZE - 1)
        iovecs_copy_loop fuel ls total_size vbuff_len (bytes_sent + iov_size2)
    else bytes_sent

/-- `iovecs_copy` (socket_trace.c lines 625-674); returns `bytes_sent`. -/
def iovecs_copy (vbuff_len : Nat) (iov_lens : List Nat)
    (syscall_len send_len : Nat) : Nat :=
  let total_size :=
    if syscall_len ≥ CAP_DATA_SIZE then CAP_DATA_SIZE else send_len
  iovecs_copy_loop 12 iov_lens total_size vbuff_len 0

/-! ### data_submit -/

/-- Oracle inputs of one `data_submit` run: `get_go_version` (modelled from
the spec, section 4.5: nonzero exactly for a Go-identified process),
`bpf_ktime_get_ns`, the tcp sequence numbers read from the socket, the
success of the payload `bpf_probe_read`, and the `iov_len`s the iovec walk
reads. -/
structure submit_env where
  go_version : Nat
  ktime : Nat
  tcp_read_seq : Nat
  tcp_write_seq : Nat
  copy_ok : Bool
  iov_lens : List Nat
deriving DecidableEq

structure submit_result where
  st : kern_state
  appended : Option socket_data
  flushed : Option (List socket_data)

/-- `v->data_type` as set by `data_submit` (socket_trace.c lines 881-884):
the protocol tag, with the go-tls HTTP/1 special case. -/
def data_submit_data_type (conn : conn_info_t)
    (extra : process_data_extra) : Nat :=
  if conn.protocol = PROTO_HTTP1 ∧ extra.go ∧ extra.tls then
    PROTO_GO_TLS_HTTP1
  else conn.protocol

/-- `v->tcp_seq` as set by `data_submit` (socket_trace.c lines 894-910):
`tcp_seq - syscall_len` in `u32` arithmetic for TCP, further reduced by
`prev_count` when carry bytes exist, and overridden by `extra->tcp_seq`
when `extra->use_tcp_seq` is set. -/
def data_submit_tcp_seq (conn : conn_info_t) (extra : process_data_extra)
    (tcp_seq syscall_len : Nat) : Nat :=
  let base_tcp_seq :=
    if conn.l4_protocol = IPPROTO_TCP then
      (tcp_seq + 2 ^ 32 - syscall_len % 2 ^ 32) % 2 ^ 32
    else 0
  let prev_tcp_seq :=
    if conn.prev_count > 0 then
      (base_tcp_seq + 2 ^ 32 - conn.prev_count % 2 ^ 32) % 2 ^ 32
    else base_tcp_seq
  if extra.use_tcp_seq then extra.tcp_seq else prev_tcp_seq

/-- The `struct __socket_data` record `data_submit` fills in before the
append (socket_trace.c lines 878-912 and 943). -/
def data_submit_fill (conn : conn_info_t) (extra : process_data_extra)
    (pid_tgid v_uid v_seq thread_trace_id final_tcp_seq time_stamp
     syscall_len data_type dl : Nat) : socket_data :=
  { pid := pid_tgid % 2 ^ 32, tgid := pid_tgid / 2 ^ 32,
    coroutine_id := extra.coroutine_id, socket_id := v_uid,
    addr_len := if conn.skc_family = PF_INET then 4 else 16,
    l4_protocol := conn.l4_protocol, dport := conn.dport,
    sport := conn.sport,
    extra_data := if conn.prev_count > 0 then conn.prev_buf else 0,
    extra_data_count := if conn.prev_count > 0 then conn.prev_count else 0,
    tcp_seq := final_tcp_seq, thread_trace_id := thread_trace_id,
    timestamp := time_stamp, direction := conn.direction,
    msg_type := conn.message_type, syscall_len := syscall_len,
    data_seq := v_seq, data_type := data_type, data_len := dl }

/-- The payload length `data_submit` ends up with (`len` after the
`iovecs_copy` / `bpf_probe_read` section, socket_trace.c lines 917-941);
`none` when the non-iovec `bpf_probe_read` fails (the record is aborted). -/
def data_submit_len (vbuff_len : Nat) (iov_lens : List Nat) (vecs : Bool)
    (syscall_len : Nat) (copy_ok : Bool) : Option Nat :=
  if vecs then
    some (iovecs_copy vbuff_len iov_lens syscall_len
      (syscall_len &&& (CAP_DATA_SIZE - 1)))
  else if syscall_len ≥ CAP_DATA_SIZE then
    if copy_ok then some CAP_DATA_SIZE else none
  else
    if copy_ok then some (syscall_len &&& (CAP_DATA_SIZE - 1)) else none

/-- The append-and-maybe-flush step of `data_submit` (socket_trace.c lines
943-962): bump `len` and `events_num`, and on the 16th event emit the
whole buffer through the perf channel and reset it. -/
def data_submit_append (st1 : kern_state) (v : socket_data) (dl : Nat) :
    submit_result :=
  let buf1 : socket_data_buffer :=
    { events_num := st1.buf.events_num + 1,
      len := st1.buf.len + SOCKET_DATA_HEADER_SIZE + dl,
      recs := st1.buf.recs ++ [v] }
  if buf1.events_num = EVENT_BURST_NUM then
    { st := { st1 with buf := { events_num := 0, len := 0, recs := [] } },
      appended := some v, flushed := some buf1.recs }
  else
    { st := { st1 with buf := buf1 }, appended := some v, flushed := none }

/-- The tail of `data_submit` (socket_trace.c lines 865-963): look up the
per-cpu staging buffer, fill in a `struct __socket_data`, append it and
flush on the 16-event burst.  `st1` already carries every map update the
head of `data_submit` performed. -/
def data_submit_emit (st1 : kern_state) (conn : conn_info_t)
    (args : data_args_t) (vecs : Bool) (syscall_len : Nat)
    (time_stamp : Nat) (extra : process_data_extra) (pid_tgid : Nat)
    (env : submit_env) (v_uid v_seq thread_trace_id tcp_seq : Nat) :
    submit_result :=
  if st1.buf.len > SOCKET_BUFFER_DATA_SIZE - SOCKET_DATA_SIZE then
    { st := st1, appended := none, flushed := none }
  else if get_socket_info_ok conn = false then
    { st := st1, appended := none, flushed := none }
  else
    match data_submit_len st1.buf.len (env.iov_lens.take args.iovlen.toNat)
        vecs syscall_len env.copy_ok with
    | none => { st := st1, appended := none, flushed := none }
    | some dl =>
      data_submit_append st1
        (data_submit_fill conn extra pid_tgid v_uid v_seq thread_trace_id
          (data_submit_tcp_seq conn extra tcp_seq syscall_len) time_stamp
          syscall_len (data_submit_data_type conn extra) dl) dl

/-- The peer half of the valid-entry update (socket_trace.c lines
850-857): when the session has a `peer_fd` and the event is ingress, write
the thread trace id into the valid peer entry, through the looked-up
pointer. -/
def socket_info_peer_update (m1 : Nat → Option socket_info_t)
    (peer_key ttid : Nat) : Nat → Option socket_info_t :=
  match m1 peer_key with
  | some p =>
    if is_socket_info_valid (some p) then
      map_update m1 peer_key { p with trace_id := ttid }
    else m1
  | none => m1

/-- The socket-info fields (`sk_info.uid` / `sk_info.seq`) and trace id the
head of `data_submit` hands to the emission tail, together with the
updated `socket_info_map`. -/
structure valid_update_out where
  m : Nat → Option socket_info_t
  ttid : Nat
  v_uid : Nat
  v_seq : Nat

/-- `data_submit` (socket_trace.c lines 726-963).  The C pointer
`conn_info->socket_info_ptr` aliases the live `socket_info_map` entry at
`conn_key`, so writes through it are modelled as map updates at that
key. -/
def data_submit (st : kern_state) (conn0 : Option conn_info_t)
    (args : data_args_t) (vecs : Bool) (syscall_len : Nat)
    (time_stamp0 : Nat) (extra : process_data_extra) (pid_tgid : Nat)
    (env : submit_env) : submit_result :=
  let no_change : submit_result := { st := st, appended := none, flushed := none }
  match conn0 with
  | none => no_change
  | some conn =>
    -- ignore non-http protocols that are go tls
    if extra.go ∧ extra.tls ∧ conn.protocol ≠ PROTO_HTTP1 then no_change
    else if conn.sk_nonnull = false ∨ conn.message_type = MSG_UNKNOWN then
      no_change
    else
      let tgid := pid_tgid / 2 ^ 32
      let time_stamp := if time_stamp0 = 0 then env.ktime else time_stamp0
      let conn_key := gen_conn_key_id tgid conn.fd
      if conn.message_type = MSG_CLEAR then
        let r := delete_socket_info st.socket_info_map st.stats conn_key
          conn.socket_info_ptr
        { st := { st with socket_info_map := r.1, stats := r.2 },
          appended := none, flushed := none }
      else
        let tcp_seq : Nat :=
          if conn.direction = T_INGRESS ∧ conn.l4_protocol = IPPROTO_TCP then
            env.tcp_read_seq
          else if conn.direction = T_EGRESS ∧ conn.l4_protocol = IPPROTO_TCP then
            env.tcp_write_seq
          else 0
        let trace_info_ptr := st.trace_map pid_tgid
        let socket_info_ptr := conn.socket_info_ptr
        let valid : Bool := is_socket_info_valid socket_info_ptr
        let socket_id : Nat :=
          if valid then
            match socket_info_ptr with
            | some s => s.uid
            | none => 0
          else (st.trace_uid.socket_id + 1) % U64
        -- (jiping) set thread_trace_id = 0 for go process
        let tp : trace_process_result :=
          if conn.message_type ≠ MSG_PRESTORE ∧
             conn.message_type ≠ MSG_RECONFIRM ∧ env.go_version = 0 then
            trace_process socket_info_ptr conn socket_id pid_tgid
              trace_info_ptr st.trace_uid st.stats 0 time_stamp st.trace_map
          else
            { keep_data_seq := conn.keep_data_seq, thread_trace_id := 0,
              trace_map := st.trace_map,
              uid_thread_trace_id := st.trace_uid.thread_trace_id,
              trace_map_count := st.stats.trace_map_count }
        -- creation of a socket_info_map entry when there is no valid one
        let created : Option socket_info_t :=
          if valid then none
          else some (
            let base := socket_info_zero
            let base :=
              match socket_info_ptr with
              | some s =>
                if conn.direction = T_EGRESS then { base with peer_fd := s.peer_fd }
                else base
              | none => base
            let base :=
              { base with
                uid := (st.trace_uid.socket_id + 1) % U64,
                l7_proto := conn.protocol % 2 ^ 8,
                direction := conn.direction % 2,
                role := conn.role % 2 ^ 5,
                msg_type := conn.message_type % 2 ^ 2,
                update_time := time_stamp / NS_PER_SEC,
                need_reconfirm := conn.need_reconfirm,
                correlation_id := conn.correlation_id }
            if conn.message_type = MSG_PRESTORE then
              { base with
                prev_data := conn.prev_buf,
                prev_data_len := 4,
                uid := 0 }
            else base)
        let ttid1 : Nat :=
          if valid then tp.thread_trace_id
          else
            match socket_info_ptr with
            | some s =>
              if conn.direction = T_EGRESS then s.trace_id
              else tp.thread_trace_id
            | none => tp.thread_trace_id
        let uid_socket_id :=
          if valid then st.trace_uid.socket_id
          else (st.trace_uid.socket_id + 1) % U64
        let socket_map_count1 :=
          if valid = false ∧ socket_info_ptr = none then
            (st.stats.socket_map_count + 1) % U64
          else st.stats.socket_map_count
        let sim1 :=
          match created with
          | some e => map_update st.socket_info_map conn_key e
          | none => st.socket_info_map
        if conn.message_type = MSG_PRESTORE ∨ conn.message_type = MSG_RECONFIRM then
          { st :=
              { st with
                socket_info_map := sim1,
                trace_map := tp.trace_map,
                trace_uid :=
                  { st.trace_uid with
                    socket_id := uid_socket_id,
                    thread_trace_id := tp.uid_thread_trace_id },
                stats :=
                  { socket_map_count := socket_map_count1,
                    trace_map_count := tp.trace_map_count } },
            appended := none, flushed := none }
        else
          -- update of the existing valid entry through socket_info_ptr
          let vo : valid_update_out :=
            if valid then
              match socket_info_ptr with
              | some s =>
                let new_seq := if tp.keep_data_seq then s.seq else (s.seq + 1) % 2 ^ 56
                let e1 : socket_info_t :=
                  { s with
                    seq := new_seq,
                    direction := conn.direction % 2,
                    msg_type := conn.message_type % 2 ^ 2,
                    update_time := time_stamp / NS_PER_SEC }
                let m1 := map_update sim1 conn_key e1
                -- ingress: park the thread trace id at the peer socket
                let m2 :=
                  if e1.peer_fd ≠ 0 ∧ conn.direction = T_INGRESS then
                    socket_info_peer_update m1
                      (gen_conn_key_id tgid e1.peer_fd) ttid1
                  else m1
                -- egress: consume a parked trace id
                if conn.direction = T_EGRESS ∧ e1.trace_id ≠ 0 then
                  { m := map_update m2 conn_key { e1 with trace_id := 0 },
                    ttid := e1.trace_id,
                    v_uid := s.uid,
                    v_seq := new_seq }
                else
                  { m := m2, ttid := ttid1, v_uid := s.uid, v_seq := new_seq }
              | none => { m := sim1, ttid := ttid1, v_uid := 0, v_seq := 0 }
            else
              { m := sim1,
                ttid := ttid1,
                v_uid := match created with | some e => e.uid | none => 0,
                v_seq := 0 }
          let st1 : kern_state :=
            { st with
              socket_info_map := vo.m,
              trace_map := tp.trace_map,
              trace_uid :=
                { st.trace_uid with
                  socket_id := uid_socket_id,
                  thread_trace_id := tp.uid_thread_trace_id },
              stats :=
                { socket_map_count := socket_map_count1,
                  trace_map_count := tp.trace_map_count } }
          data_submit_emit st1 conn args vecs syscall_len time_stamp extra
            pid_tgid env vo.v_uid vo.v_seq vo.ttid tcp_seq

/-! ### process_data and the probe environment -/

/-- Modelled from the spec: the outcome of one `infer_protocol` call
(`protocol_inference.h` is not among the provided sources); section 4.4:
each recognizer returns `{protocol, msg_type}` and may stash up to 4
payload bytes (`prev_buf`/`prev_count`), set `need_reconfirm`,
`correlation_id` and `role` in the `conn_info`. -/
structure infer_result_t where
  protocol : Nat
  msg_type : Nat
  prev_count : Nat
  prev_buf : Nat
  need_reconfirm : Bool
  correlation_id : Int
  role : Nat
deriving DecidableEq

/-- Every kernel-memory oracle one probe invocation needs:
`get_socket_from_fd` (task_struct_utils.h walks the fd table), the ports
`init_conn_info` reads, the recognizer outcome and the `data_submit`
oracles. -/
structure probe_env where
  sk : Option sock_fields
  sport : Nat
  dport : Nat
  infer : infer_result_t
  submit : submit_env
deriving DecidableEq

structure process_result where
  st : kern_state
  classified : Bool
  appended : Option socket_data
  flushed : Option (List socket_data)

/-- The C cast `(int)x` of a 64-bit value. -/
def toInt32 (x : Int) : Int := (x + 2 ^ 31) % 2 ^ 32 - 2 ^ 31

/-- `process_data` (socket_trace.c lines 965-1039, non-CO-RE build:
`offset->ready == 0` makes every path return before touching a socket).
`classified` records whether `is_tcp_udp_data` was reached. -/
def process_data (st : kern_state) (env : probe_env) (id : Nat)
    (direction : Nat) (args : data_args_t) (bytes_count : Int)
    (extra : process_data_extra) : process_result :=
  let tgid := id / 2 ^ 32
  let dropped : process_result :=
    { st := st, classified := false, appended := none, flushed := none }
  if ¬ extra.vecs ∧ args.buf_null then dropped
  else if extra.vecs ∧ (args.iov_null ∨ args.iovlen ≤ 0) then dropped
  else if args.fd < 0 ∨ toInt32 bytes_count ≤ 0 then dropped
  else if st.offset.ready = 0 then dropped
  else
    match env.sk with
    | none => dropped
    | some sf =>
      let tu := is_tcp_udp_data sf
      if tu.check = sock_check.error then
        { st := st, classified := true, appended := none, flushed := none }
      else
        -- init_conn_info, then conn_info->direction = direction
        let conn_key := gen_conn_key_id tgid args.fd.toNat
        let conn0 : conn_info_t :=
          { skc_family := tu.skc_family,
            skc_ipv6only := sf.skc_ipv6only,
            sk_type := tu.sk_type,
            l4_protocol := tu.l4_protocol,
            dport := env.dport,
            sport := env.sport,
            prev_count := 0,
            prev_buf := 0,
            direction := direction,
            need_reconfirm := false,
            correlation_id := -1,
            fd := args.fd.toNat,
            role := ROLE_UNKNOWN,
            sk_nonnull := true,
            socket_info_ptr := st.socket_info_map conn_key,
            keep_data_seq := false,
            protocol := 0,
            message_type := 0 }
        -- infer_l7_class over the recognizer oracle
        let conn1 :=
          if env.infer.protocol = PROTO_UNKNOWN ∧
             env.infer.msg_type = MSG_UNKNOWN then
            { conn0 with protocol := PROTO_UNKNOWN }
          else
            { conn0 with
              protocol := env.infer.protocol,
              message_type := env.infer.msg_type,
              prev_count := env.infer.prev_count,
              prev_buf := env.infer.prev_buf,
              need_reconfirm := env.infer.need_reconfirm,
              correlation_id := env.infer.correlation_id,
              role := env.infer.role }
        if conn1.protocol ≠ PROTO_UNKNOWN ∨ conn1.message_type ≠ MSG_UNKNOWN then
          let r := data_submit st (some conn1) args extra.vecs
            (bytes_count.toNat % 2 ^ 32) args.enter_ts extra id env.submit
          { st := r.st, classified := true, appended := r.appended,
            flushed := r.flushed }
        else
          { st := st, classified := true, appended := none, flushed := none }

/-- `process_syscall_data`: `process_data` with an all-zero `extra`. -/
def extra_plain : process_data_extra :=
  { vecs := false, use_tcp_seq := false, tcp_seq := 0, coroutine_id := 0,
    go := false, tls := false }

/-- `process_syscall_data_vecs`: `extra = { .vecs = true }`. -/
def extra_vecs : process_data_extra :=
  { vecs := true, use_tcp_seq := false, tcp_seq := 0, coroutine_id := 0,
    go := false, tls := false }

/-! ### Syscall exit handlers -/

/-- The state the tracepoint handlers act on: the kernel tracer state plus
the two per-thread stash maps keyed by `pid_tgid`. -/
structure sys_state where
  k : kern_state
  active_write_args : Nat → Option data_args_t
  active_read_args : Nat → Option data_args_t

structure handler_result where
  s : sys_state
  classified : Bool
  appended : Option socket_data
  flushed : Option (List socket_data)

/-- Packages a handler's optional `process_data` outcome and the map it
unconditionally deletes from. -/
def handler_finish (s : sys_state) (pr : Option process_result)
    (del_write : Bool) (id : Nat) : handler_result :=
  let k1 := match pr with | some r => r.st | none => s.k
  { s :=
      { k := k1,
        active_write_args :=
          if del_write then map_delete s.active_write_args id
          else s.active_write_args,
        active_read_args :=
          if del_write then s.active_read_args
          else map_delete s.active_read_args id },
    classified := match pr with | some r => r.classified | none => false,
    appended := match pr with | some r => r.appended | none => none,
    flushed := match pr with | some r => r.flushed | none => none }

/-- `sys_exit_write` (socket_trace.c lines 1087-1099). -/
def sys_exit_write (s : sys_state) (env : probe_env) (id : Nat)
    (ret : Int) : handler_result :=
  let pr :=
    match s.active_write_args id with
    | some write_args =>
      -- Don't process FD 0-2 to avoid STDIN, STDOUT, STDERR.
      if write_args.fd > 2 then
        some (process_data s.k env id T_EGRESS write_args ret extra_plain)
      else none
    | none => none
  handler_finish s pr true id

/-- `sys_exit_read` (socket_trace.c lines 1117-1131). -/
def sys_exit_read (s : sys_state) (env : probe_env) (id : Nat)
    (ret : Int) : handler_result :=
  let pr :=
    match s.active_read_args id with
    | some read_args =>
      -- Don't process FD 0-2 to avoid STDIN, STDOUT, STDERR.
      if read_args.fd > 2 then
        some (process_data s.k env id T_INGRESS read_args ret extra_plain)
      else none
    | none => none
  handler_finish s pr false id

/-- `sys_exit_sendto` (socket_trace.c lines 1151-1168). -/
def sys_exit_sendto (s : sys_state) (env : probe_env) (id : Nat)
    (ret : Int) : handler_result :=
  let pr :=
    match s.active_write_args id with
    | some write_args =>
      some (process_data s.k env id T_EGRESS write_args ret extra_plain)
    | none => none
  handler_finish s pr true id

/-- `sys_exit_recvfrom` (socket_trace.c lines 1187-1198). -/
def sys_exit_recvfrom (s : sys_state) (env : probe_env) (id : Nat)
    (ret : Int) : handler_result :=
  let pr :=
    match s.active_read_args id with
    | some read_args =>
      some (process_data s.k env id T_INGRESS read_args ret extra_plain)
    | none => none
  handler_finish s pr false id

/-- `sys_exit_sendmsg` (socket_trace.c lines 1225-1236). -/
def sys_exit_sendmsg (s : sys_state) (env : probe_env) (id : Nat)
    (ret : Int) : handler_result :=
  let pr :=
    match s.active_write_args id with
    | some write_args =>
      some (process_data s.k env id T_EGRESS write_args ret extra_vecs)
    | none => none
  handler_finish s pr true id

/-- `sys_exit_sendmmsg` (socket_trace.c lines 1263-1278); `mmsg_bytes` is
the `bpf_probe_read` of `write_args->msg_len`. -/
def sys_exit_sendmmsg (s : sys_state) (env : probe_env) (mmsg_bytes : Int)
    (id : Nat) (ret : Int) : handler_result :=
  let num_msgs := toInt32 ret
  let pr :=
    match s.active_write_args id with
    | some write_args =>
      if num_msgs > 0 then
        some (process_data s.k env id T_EGRESS write_args mmsg_bytes extra_vecs)
      else none
    | none => none
  handler_finish s pr true id

/-- `sys_exit_recvmsg` (socket_trace.c lines 1305-1316). -/
def sys_exit_recvmsg (s : sys_state) (env : probe_env) (id : Nat)
    (ret : Int) : handler_result :=
  let pr :=
    match s.active_read_args id with
    | some read_args =>
      some (process_data s.k env id T_INGRESS read_args ret extra_vecs)
    | none => none
  handler_finish s pr false id

/-- `sys_exit_recvmmsg` (socket_trace.c lines 1351-1364); `mmsg_bytes` is
the `bpf_probe_read` of `read_args->msg_len`. -/
def sys_exit_recvmmsg (s : sys_state) (env : probe_env) (mmsg_bytes : Int)
    (id : Nat) (ret : Int) : handler_result :=
  let num_msgs := toInt32 ret
  let pr :=
    match s.active_read_args id with
    | some read_args =>
      if num_msgs > 0 then
        some (process_data s.k env id T_INGRESS read_args mmsg_bytes extra_vecs)
      else none
    | none => none
  handler_finish s pr false id

/-- `sys_exit_writev` (socket_trace.c lines 1387-1399). -/
def sys_exit_writev (s : sys_state) (env : probe_env) (id : Nat)
    (ret : Int) : handler_result :=
  let pr :=
    match s.active_write_args id with
    | some write_args =>
      some (process_data s.k env id T_EGRESS write_args ret extra_vecs)
    | none => none
  handler_finish s pr true id

/-- `sys_exit_readv` (socket_trace.c lines 1420-1430). -/
def sys_exit_readv (s : sys_state) (env : probe_env) (id : Nat)
    (ret : Int) : handler_result :=
  let pr :=
    match s.active_read_args id with
    | some read_args =>
      some (process_data s.k env id T_INGRESS read_args ret extra_vecs)
    | none => none
  handler_finish s pr false id

/-! ### Offset inference -/

/-- Oracle inputs of one `infer_offset_retry` call: whether
`infer_and_get_socket_from_fd` found a socket, and the candidate offsets
the probing walks of `infer_sock_flags` / `infer_tcp_seq_offset` would
accept on this socket (0 when no candidate passes its semantic check). -/
structure infer_env where
  infer_sk : Bool
  found_sock_flags : Nat
  found_copied_seq : Nat
  found_write_seq : Nat
deriving DecidableEq

/-- `infer_tcp_seq_offset` (socket_trace.c lines 437-485). -/
def infer_tcp_seq_offset (off : member_fields_offset) (env : infer_env) :
    member_fields_offset :=
  let off1 :=
    if off.tcp_sock__copied_seq_offset = 0 then
      { off with tcp_sock__copied_seq_offset := env.found_copied_seq }
    else off
  let snd_nxt_offset := off1.tcp_sock__copied_seq_offset + 8
  if snd_nxt_offset = 8 then off1
  else if off1.tcp_sock__write_seq_offset = 0 then
    { off1 with tcp_sock__write_seq_offset := env.found_write_seq }
  else off1

/-- The inference body of `infer_offset_retry` (socket_trace.c lines
495-513): on a cpu whose offsets are not yet ready, try to learn the
missing offsets from the socket and set `ready = 1` once all four are
known. -/
def infer_offset_step (off0 : member_fields_offset) (env : infer_env) :
    member_fields_offset :=
  if off0.ready = 0 then
    if env.infer_sk then
      let o1 :=
        if off0.sock__flags_offset = 0 then
          { off0 with sock__flags_offset := env.found_sock_flags }
        else off0
      if o1.tcp_sock__copied_seq_offset = 0 ∨
         o1.tcp_sock__write_seq_offset = 0 then
        let o2 := infer_tcp_seq_offset o1 env
        if o2.tcp_sock__copied_seq_offset ≠ 0 ∧
           o2.tcp_sock__write_seq_offset ≠ 0 ∧
           o2.sock__flags_offset ≠ 0 ∧ o2.task__files_offset ≠ 0 then
          { o2 with ready := 1 }
        else o2
      else o1
    else off0
  else off0

/-- `infer_offset_retry` (socket_trace.c lines 487-519, non-CO-RE build);
returns the status and the updated per-cpu offset struct. -/
def infer_offset_retry (off0 : member_fields_offset) (env : infer_env) :
    Nat × member_fields_offset :=
  let off := infer_offset_step off0 env
  if off.ready = 0 then (OFFSET_NO_READY, off) else (OFFSET_READY, off)

/-! ### sys_enter_close and the periodic getppid tick -/

/-- `sys_enter_close` (socket_trace.c lines 1434-1452); `sock_addr` is the
`get_socket_from_fd` result cast to `u64`. -/
def sys_enter_close (st : kern_state) (ienv : infer_env) (sock_addr : Nat)
    (pid_tgid : Nat) (fd : Nat) : kern_state :=
  let r := infer_offset_retry st.offset ienv
  let st1 := { st with offset := r.2 }
  if r.1 = OFFSET_NO_READY then st1
  else if sock_addr ≠ 0 then
    let conn_key := gen_conn_key_id (pid_tgid / 2 ^ 32) fd
    match st1.socket_info_map conn_key with
    | some si =>
      let d := delete_socket_info st1.socket_info_map st1.stats conn_key
        (some si)
      { st1 with socket_info_map := d.1, stats := d.2 }
    | none => st1
  else st1

/-- `sys_enter_getppid` (socket_trace.c lines 1456-1483): the periodic
tick; the age test subtracts `v->timestamp * NS_PER_US` from
`bpf_ktime_get_ns()` in `u64` arithmetic. -/
def sys_enter_getppid (st : kern_state) (ktime : Nat) :
    kern_state × Option (List socket_data) :=
  if st.buf.events_num > 0 then
    match st.buf.recs with
    | v :: _ =>
      if (ktime % U64 + U64 - (v.timestamp * NS_PER_US) % U64) % U64 >
         NS_PER_SEC then
        ({ st with buf := { events_num := 0, len := 0, recs := [] } },
         some st.buf.recs)
      else (st, none)
    | [] => (st, none)
  else (st, none)

/-! ### Basic lemmas about the map model -/

theorem map_update_self {α : Type} (m : Nat → Option α) (k : Nat) (v : α) :
    map_update m k v k = some v := by
  simp [map_update]

theorem map_update_other {α : Type} (m : Nat → Option α) (k k' : Nat) (v : α)
    (h : k' ≠ k) : map_update m k v k' = m k' := by
  simp [map_update, h]

theorem map_delete_self {α : Type} (m : Nat → Option α) (k : Nat) :
    map_delete m k k = none := by
  simp [map_delete]

/-! ### Shared concrete sample inputs (used by witnesses and
counterexamples) -/

/-- An established loopback TCP socket. -/
def sock_tcp_est : sock_fields :=
  { skc_family := PF_INET, skc_ipv6only := 0, sk_type := SOCK_STREAM,
    skc_state := TCP_ESTABLISHED }

/-- A recognizer outcome: HTTP/1 request. -/
def infer_http_req : infer_result_t :=
  { protocol := PROTO_HTTP1, msg_type := MSG_REQUEST, prev_count := 0,
    prev_buf := 0, need_reconfirm := false, correlation_id := -1, role := 1 }

def senv0 : submit_env :=
  { go_version := 0, ktime := 777, tcp_read_seq := 1000, tcp_write_seq := 2000,
    copy_ok := true, iov_lens := [100] }

def penv0 : probe_env :=
  { sk := some sock_tcp_est, sport := 1234, dport := 80,
    infer := infer_http_req, submit := senv0 }

def off_ready : member_fields_offset :=
  { ready := 1, task__files_offset := 1, sock__flags_offset := 1,
    tcp_sock__copied_seq_offset := 1, tcp_sock__write_seq_offset := 1 }

/-- A quiet tracer state with offsets ready and empty maps. -/
def kst0 : kern_state :=
  { socket_info_map := fun _ => none, trace_map := fun _ => none,
    trace_uid :=
      { socket_id := 9000, coroutine_trace_id := 0, thread_trace_id := 0 },
    stats := { socket_map_count := 0, trace_map_count := 0 },
    buf := { events_num := 0, len := 0, recs := [] },
    offset := off_ready }

/-- An established session: uid 5, seq 9, last event egress REQUEST. -/
def si_w : socket_info_t :=
  { socket_info_zero with uid := 5, seq := 9, direction := 0, msg_type := 1 }

/-- A `conn_info` as built for an egress HTTP request on fd 7 whose session
`si_w` exists. -/
def conn_w : conn_info_t :=
  { skc_family := PF_INET, skc_ipv6only := 0, sk_type := SOCK_STREAM,
    l4_protocol := IPPROTO_TCP, dport := 80, sport := 1234, prev_count := 0,
    prev_buf := 0, direction := T_EGRESS, need_reconfirm := false,
    correlation_id := -1, fd := 7, role := 1, sk_nonnull := true,
    socket_info_ptr := some si_w, keep_data_seq := false,
    protocol := PROTO_HTTP1, message_type := MSG_REQUEST }

def args_w : data_args_t :=
  { source_fn := 0, fd := 7, buf_null := false, iov_null := false,
    iovlen := 1, enter_ts := 5 }

def ti_w : trace_info_t :=
  { update_time := 0, peer_fd := 0, thread_trace_id := 33, socket_id := 6 }

/-! ### Claim C1 -/

/-- Claim C1: in `trace_process`, an egress event on a thread that has a
`TraceInfo` entry emits the stored `thread_trace_id` when the event's
socket differs from the stored `socket_id` and 0 when it is the same
socket, deleting the entry in both cases; an egress event on a thread
without an entry emits 0 (`data_submit` passes the out-variable
initialized to 0). -/
theorem trace_process_egress_spec (socket_info_ptr : Option socket_info_t)
    (conn : conn_info_t) (socket_id pid_tgid : Nat)
    (trace_info_ptr : Option trace_info_t) (tu : trace_uid_t)
    (stats : trace_stats) (ts : Nat) (tm : Nat → Option trace_info_t)
    (r : trace_process_result)
    (hdir : conn.direction = T_EGRESS)
    (hr : r = trace_process socket_info_ptr conn socket_id pid_tgid
      trace_info_ptr tu stats 0 ts tm) :
    r.trace_map pid_tgid = none ∧
    (∀ ti, trace_info_ptr = some ti →
      r.thread_trace_id =
        if socket_id ≠ ti.socket_id then ti.thread_trace_id else 0) ∧
    (trace_info_ptr = none → r.thread_trace_id = 0) := by
  subst hr
  unfold trace_process
  simp only [hdir]
  cases trace_info_ptr with
  | none => simp [T_EGRESS, T_INGRESS, map_delete]
  | some ti => simp [T_EGRESS, T_INGRESS, map_delete]

/-- Witness for C1 at concrete inputs (egress on fd 7, stored trace entry
for socket 6, current socket 5, then the same-socket case). -/
theorem trace_process_egress_spec_witness :
    ((trace_process (some si_w) conn_w 5 77 (some ti_w) kst0.trace_uid
        kst0.stats 0 5 (fun _ => none)).trace_map 77 = none ∧
      (∀ ti, some ti_w = some ti →
        (trace_process (some si_w) conn_w 5 77 (some ti_w) kst0.trace_uid
            kst0.stats 0 5 (fun _ => none)).thread_trace_id =
          if 5 ≠ ti.socket_id then ti.thread_trace_id else 0) ∧
      ((some ti_w = none) →
        (trace_process (some si_w) conn_w 5 77 (some ti_w) kst0.trace_uid
            kst0.stats 0 5 (fun _ => none)).thread_trace_id = 0)) ∧
    (trace_process (some si_w) conn_w 6 77 (some ti_w) kst0.trace_uid
        kst0.stats 0 5 (fun _ => none)).thread_trace_id = 0 := by
  constructor
  · exact trace_process_egress_spec (some si_w) conn_w 5 77 (some ti_w)
      kst0.trace_uid kst0.stats 5 (fun _ => none) _ rfl rfl
  · have h := trace_process_egress_spec (some si_w) conn_w 6 77 (some ti_w)
      kst0.trace_uid kst0.stats 5 (fun _ => none) _ rfl rfl
    have h2 := h.2.1 ti_w rfl
    simpa [ti_w] using h2

/-! ### Claim C4 -/

/-- For a state value below 32 (the range where the C `1 << skc_state`
expression on a 32-bit `int` is well defined; kernel TCP states are 1-12),
the reject mask accepts exactly `ESTABLISHED` and `CLOSE_WAIT`. -/
theorem tcp_state_mask_ok : ∀ s, s < 32 →
    ((((1 <<< s) % 2 ^ 32) &&& tcp_state_reject_mask = 0) ↔
      (s = TCP_ESTABLISHED ∨ s = TCP_CLOSE_WAIT)) := by decide

/-- Claim C4 (amended): `is_tcp_udp_data` accepts family `PF_INET` and
`PF_INET6` — including an IPv6-only-bound `PF_INET6` socket, which the
original claim said is rejected — and rejects every other family; an
accepted `SOCK_DGRAM` socket is classified UDP with no state check, an
accepted `SOCK_STREAM` socket errors unless the TCP state is
`ESTABLISHED` or `CLOSE_WAIT`, and any other socket type errors. -/
theorem is_tcp_udp_data_classification (sf : sock_fields)
    (hs : sf.skc_state < 32) :
    (is_tcp_udp_data sf).check =
      if ¬ (sf.skc_family = PF_INET ∨ sf.skc_family = PF_INET6) then
        sock_check.error
      else if sf.sk_type = SOCK_DGRAM then sock_check.udp
      else if sf.sk_type ≠ SOCK_STREAM then sock_check.error
      else if sf.skc_state = TCP_ESTABLISHED ∨ sf.skc_state = TCP_CLOSE_WAIT
        then sock_check.tcp_es
      else sock_check.error := by
  have hmask := tcp_state_mask_ok sf.skc_state hs
  unfold is_tcp_udp_data
  by_cases h1 : sf.skc_family = PF_INET ∨ sf.skc_family = PF_INET6
  · by_cases h2 : sf.sk_type = SOCK_DGRAM
    · simp [h1, h2]
    · by_cases h3 : sf.sk_type = SOCK_STREAM
      · by_cases h4 : sf.skc_state = TCP_ESTABLISHED ∨
            sf.skc_state = TCP_CLOSE_WAIT
        · have hz : ((1 <<< sf.skc_state) % 4294967296) &&&
              tcp_state_reject_mask = 0 := hmask.mpr h4
          simp [h1, h2, h3, h4, hz, SOCK_STREAM, SOCK_DGRAM]
        · have hz : ((1 <<< sf.skc_state) % 4294967296) &&&
              tcp_state_reject_mask ≠ 0 := fun hc => h4 (hmask.mp hc)
          simp [h1, h2, h3, h4, hz, SOCK_STREAM, SOCK_DGRAM]
      · simp [h1, h2, h3]
  · simp [h1]

/-- Witness for C4: an established PF_INET TCP socket is accepted, a
PF_UNIX socket is rejected. -/
theorem is_tcp_udp_data_classification_witness :
    (is_tcp_udp_data sock_tcp_est).check = sock_check.tcp_es ∧
    (is_tcp_udp_data
      { skc_family := PF_UNIX, skc_ipv6only := 0, sk_type := SOCK_STREAM,
        skc_state := 1 }).check = sock_check.error := by
  constructor
  · have h := is_tcp_udp_data_classification sock_tcp_est (by decide)
    simpa [sock_tcp_est] using h
  · have h := is_tcp_udp_data_classification
      { skc_family := PF_UNIX, skc_ipv6only := 0, sk_type := SOCK_STREAM,
        skc_state := 1 } (by decide)
    simpa using h

/-- Counterexample for C4 as stated: an IPv6-only-bound `PF_INET6`
`SOCK_DGRAM` socket (`skc_ipv6only = 1`) is accepted and classified UDP,
while the claim says every `PF_INET6` socket that is IPv6-only-bound is
rejected. -/
theorem is_tcp_udp_data_ipv6only_counterexample :
    (is_tcp_udp_data
      { skc_family := PF_INET6, skc_ipv6only := 1, sk_type := SOCK_DGRAM,
        skc_state := 7 }).check = sock_check.udp ∧
    sock_check.udp ≠ sock_check.error ∧
    (is_tcp_udp_data
      { skc_family := PF_INET6, skc_ipv6only := 1, sk_type := SOCK_DGRAM,
        skc_state := 7 }).skc_family = PF_INET6 := by decide

/-! ### Behavior of the emission tail (shared by several proofs) -/

/-- `data_submit_append` leaves every map and counter alone and reports the
record it appended. -/
theorem data_submit_append_state (st1 : kern_state) (v : socket_data)
    (dl : Nat) :
    (data_submit_append st1 v dl).st.socket_info_map = st1.socket_info_map ∧
    (data_submit_append st1 v dl).st.trace_map = st1.trace_map ∧
    (data_submit_append st1 v dl).st.trace_uid = st1.trace_uid ∧
    (data_submit_append st1 v dl).st.stats = st1.stats ∧
    (data_submit_append st1 v dl).appended = some v := by
  by_cases h : st1.buf.events_num + 1 = EVENT_BURST_NUM
  · simp [data_submit_append, h]
  · simp [data_submit_append, h]

/-- `data_submit_emit` only touches the staging buffer: maps, counters and
stats are untouched, and any record it appends carries exactly the
`sk_info.uid` / `sk_info.seq` / trace id / timestamp it was handed. -/
theorem data_submit_emit_state (st1 : kern_state) (conn : conn_info_t)
    (args : data_args_t) (vecs : Bool) (syscall_len time_stamp : Nat)
    (extra : process_data_extra) (pid_tgid : Nat) (env : submit_env)
    (v_uid v_seq ttid tcp_seq : Nat) :
    (data_submit_emit st1 conn args vecs syscall_len time_stamp extra
        pid_tgid env v_uid v_seq ttid tcp_seq).st.socket_info_map =
      st1.socket_info_map ∧
    (data_submit_emit st1 conn args vecs syscall_len time_stamp extra
        pid_tgid env v_uid v_seq ttid tcp_seq).st.trace_map = st1.trace_map ∧
    (data_submit_emit st1 conn args vecs syscall_len time_stamp extra
        pid_tgid env v_uid v_seq ttid tcp_seq).st.trace_uid = st1.trace_uid ∧
    (data_submit_emit st1 conn args vecs syscall_len time_stamp extra
        pid_tgid env v_uid v_seq ttid tcp_seq).st.stats = st1.stats ∧
    (∀ v, (data_submit_emit st1 conn args vecs syscall_len time_stamp extra
        pid_tgid env v_uid v_seq ttid tcp_seq).appended = some v →
      v.data_seq = v_seq ∧ v.socket_id = v_uid ∧
      v.thread_trace_id = ttid ∧ v.direction = conn.direction ∧
      v.msg_type = conn.message_type ∧ v.timestamp = time_stamp) := by
  unfold data_submit_emit
  split
  · exact ⟨rfl, rfl, rfl, rfl, fun v hv => Option.noConfusion hv⟩
  · split
    · exact ⟨rfl, rfl, rfl, rfl, fun v hv => Option.noConfusion hv⟩
    · split
      · exact ⟨rfl, rfl, rfl, rfl, fun v hv => Option.noConfusion hv⟩
      · rename_i dl heq
        have h := data_submit_append_state st1
          (data_submit_fill conn extra pid_tgid v_uid v_seq ttid
            (data_submit_tcp_seq conn extra tcp_seq syscall_len) time_stamp
            syscall_len (data_submit_data_type conn extra) dl) dl
        refine ⟨h.1, h.2.1, h.2.2.1, h.2.2.2.1, fun v hv => ?_⟩
        rw [h.2.2.2.2] at hv
        injection hv with hv
        subst hv
        exact ⟨rfl, rfl, rfl, rfl, rfl, rfl⟩

/-- `trace_process` on a valid `socket_info` pointer sets `keep_data_seq`
exactly when the event repeats the stored direction and message type. -/
theorem trace_process_keep (s : socket_info_t) (conn : conn_info_t)
    (socket_id pid_tgid : Nat) (trace_info_ptr : Option trace_info_t)
    (tu : trace_uid_t) (stats : trace_stats) (tid0 ts : Nat)
    (tm : Nat → Option trace_info_t)
    (huid : s.uid ≠ 0) (hkeep : conn.keep_data_seq = false) :
    (trace_process (some s) conn socket_id pid_tgid trace_info_ptr tu stats
        tid0 ts tm).keep_data_seq =
      (decide (conn.direction = s.direction) &&
        decide (conn.message_type = s.msg_type)) := by
  unfold trace_process
  simp only [is_socket_info_valid, huid, ne_eq, not_false_iff, decide_True,
    Bool.true_and, hkeep]
  split
  · cases hb : (decide (conn.direction = s.direction) &&
      decide (conn.message_type = s.msg_type)) <;> simp [hb]
  · cases trace_info_ptr <;>
      cases hb : (decide (conn.direction = s.direction) &&
        decide (conn.message_type = s.msg_type)) <;> simp [hb]

/-- Equation form of the first component of `data_submit_emit_state`. -/
theorem data_submit_emit_map (st1 : kern_state) (conn : conn_info_t)
    (args : data_args_t) (vecs : Bool) (syscall_len time_stamp : Nat)
    (extra : process_data_extra) (pid_tgid : Nat) (env : submit_env)
    (v_uid v_seq ttid tcp_seq : Nat) :
    (data_submit_emit st1 conn args vecs syscall_len time_stamp extra
        pid_tgid env v_uid v_seq ttid tcp_seq).st.socket_info_map =
      st1.socket_info_map :=
  (data_submit_emit_state st1 conn args vecs syscall_len time_stamp extra
    pid_tgid env v_uid v_seq ttid tcp_seq).1

/-- Looking up any key after `socket_info_peer_update` yields an entry with
the same `seq`, `uid`, `peer_fd`, `direction` and `msg_type` as before (only
`trace_id` can change). -/
theorem socket_info_peer_update_lookup (m1 : Nat → Option socket_info_t)
    (pk t k : Nat) (e1 : socket_info_t) (h : m1 k = some e1) :
    ∃ e, socket_info_peer_update m1 pk t k = some e ∧ e.seq = e1.seq ∧
      e.uid = e1.uid ∧ e.peer_fd = e1.peer_fd ∧ e.direction = e1.direction ∧
      e.msg_type = e1.msg_type := by
  unfold socket_info_peer_update
  cases hsc : m1 pk with
  | none => exact ⟨e1, h, rfl, rfl, rfl, rfl, rfl⟩
  | some p =>
    by_cases hval : is_socket_info_valid (some p) = true
    · simp only [hval, if_true, reduceIte]
      by_cases hk : k = pk
      · subst hk
        rw [h] at hsc
        injection hsc with hsc
        subst hsc
        exact ⟨_, map_update_self _ _ _, rfl, rfl, rfl, rfl, rfl⟩
      · rw [map_update_other _ _ _ _ hk]
        exact ⟨e1, h, rfl, rfl, rfl, rfl, rfl⟩
    · simp only [hval, if_false, reduceIte]
      exact ⟨e1, h, rfl, rfl, rfl, rfl, rfl⟩

/-! ### Claim C2 -/

/-- A go process on the same connection (`get_go_version() != 0` skips
`trace_process`, so `keep_data_seq` stays false). -/
def senv_go : submit_env :=
  { go_version := 1, ktime := 777, tcp_read_seq := 1000,
    tcp_write_seq := 2000, copy_ok := true, iov_lens := [100] }

/-- Claim C2 (amended): for a session with a valid `SocketInfo` entry and a
non-Go process (the original claim omitted the Go condition), the event's
recorded `data_seq` and the stored `seq` become the previous stored `seq`
when direction and message type both equal the values stored at event
arrival, and the previous `seq` plus one otherwise; hence the stored `seq`
never decreases, and strictly increases whenever direction or message type
changed. -/
theorem data_submit_seq_step
    (st : kern_state) (conn : conn_info_t) (args : data_args_t) (vecs : Bool)
    (syscall_len time_stamp0 pid_tgid : Nat) (extra : process_data_extra)
    (env : submit_env) (s : socket_info_t)
    (hptr : conn.socket_info_ptr = some s)
    (huid : s.uid ≠ 0)
    (hseq : s.seq + 1 < 2 ^ 56)
    (hkeep : conn.keep_data_seq = false)
    (hgo : env.go_version = 0)
    (hgotls : extra.go = false)
    (hsk : conn.sk_nonnull = true)
    (hmsg : conn.message_type = MSG_REQUEST ∨ conn.message_type = MSG_RESPONSE) :
    (∀ v, (data_submit st (some conn) args vecs syscall_len time_stamp0 extra
        pid_tgid env).appended = some v →
      v.data_seq = (if conn.direction = s.direction ∧
          conn.message_type = s.msg_type then s.seq else s.seq + 1) ∧
      v.socket_id = s.uid) ∧
    (∃ e, (data_submit st (some conn) args vecs syscall_len time_stamp0 extra
        pid_tgid env).st.socket_info_map
          (gen_conn_key_id (pid_tgid / 2 ^ 32) conn.fd) = some e ∧
      e.seq = (if conn.direction = s.direction ∧
          conn.message_type = s.msg_type then s.seq else s.seq + 1) ∧
      e.uid = s.uid) ∧
    s.seq ≤ (if conn.direction = s.direction ∧
        conn.message_type = s.msg_type then s.seq else s.seq + 1) ∧
    (¬ (conn.direction = s.direction ∧ conn.message_type = s.msg_type) →
      s.seq < (if conn.direction = s.direction ∧
        conn.message_type = s.msg_type then s.seq else s.seq + 1)) := by
  have hvalid : is_socket_info_valid (some s) = true := by
    simp [is_socket_info_valid, huid]
  have hkds : ∀ sid ti ts',
      (trace_process (some s) conn sid pid_tgid ti st.trace_uid st.stats 0
        ts' st.trace_map).keep_data_seq =
      (decide (conn.direction = s.direction) &&
        decide (conn.message_type = s.msg_type)) := fun sid ti ts' =>
    trace_process_keep s conn sid pid_tgid ti st.trace_uid st.stats 0 ts'
      st.trace_map huid hkeep
  have hmod : (s.seq + 1) % 2 ^ 56 = s.seq + 1 := Nat.mod_eq_of_lt hseq
  rcases hmsg with hm | hm <;>
    simp only [data_submit, hgotls, hsk, hm, hptr, hgo, hvalid, hkds, hmod,
      MSG_UNKNOWN, MSG_REQUEST, MSG_RESPONSE,
      MSG_PRESTORE, MSG_RECONFIRM, MSG_CLEAR] <;>
    simp [data_submit_emit_map, hkds, hmod, hm] <;>
    · refine ⟨?_, ?_, ?_, ?_⟩
      · intro v hv
        have h := (data_submit_emit_state _ _ _ _ _ _ _ _ _ _ _ _ _).2.2.2.2 v hv
        constructor
        · rw [h.1]
          split <;> rfl
        · rw [h.2.1]
          split <;> rfl
      · by_cases hegr : conn.direction = T_EGRESS ∧ ¬ s.trace_id = 0
        · simp only [hegr, if_true, reduceIte]
          exact ⟨_, map_update_self _ _ _, rfl, rfl⟩
        · simp only [hegr, if_false, reduceIte]
          by_cases hpeer : ¬ s.peer_fd = 0 ∧ conn.direction = T_INGRESS
          · rw [if_pos hpeer]
            obtain ⟨e, he, hs, hu, _, _, _⟩ := socket_info_peer_update_lookup
              _ (gen_conn_key_id (pid_tgid / 4294967296) s.peer_fd) _
              (gen_conn_key_id (pid_tgid / 4294967296) conn.fd) _
              (map_update_self _ _ _)
            exact ⟨e, he, hs.trans rfl, hu.trans rfl⟩
          · rw [if_neg hpeer]
            exact ⟨_, map_update_self _ _ _, rfl, rfl⟩
      · split <;> omega
      · intro hne
        split
        · rename_i hcond
          exact absurd hcond.2 (hne hcond.1)
        · omega

/-- Witness for C2: egress HTTP request on the session `si_w` (uid 5,
seq 9) that repeats the stored direction and message type, with a non-Go
process. -/
theorem data_submit_seq_step_witness :
    (∀ v, (data_submit kst0 (some conn_w) args_w false 10 5 extra_plain 77
        senv0).appended = some v →
      v.data_seq = (if conn_w.direction = si_w.direction ∧
          conn_w.message_type = si_w.msg_type then si_w.seq else si_w.seq + 1) ∧
      v.socket_id = si_w.uid) ∧
    (∃ e, (data_submit kst0 (some conn_w) args_w false 10 5 extra_plain 77
        senv0).st.socket_info_map
          (gen_conn_key_id (77 / 2 ^ 32) conn_w.fd) = some e ∧
      e.seq = (if conn_w.direction = si_w.direction ∧
          conn_w.message_type = si_w.msg_type then si_w.seq else si_w.seq + 1) ∧
      e.uid = si_w.uid) ∧
    si_w.seq ≤ (if conn_w.direction = si_w.direction ∧
        conn_w.message_type = si_w.msg_type then si_w.seq else si_w.seq + 1) ∧
    (¬ (conn_w.direction = si_w.direction ∧
        conn_w.message_type = si_w.msg_type) →
      si_w.seq < (if conn_w.direction = si_w.direction ∧
        conn_w.message_type = si_w.msg_type then si_w.seq else si_w.seq + 1)) :=
  data_submit_seq_step kst0 conn_w args_w false 10 5 77 extra_plain senv0
    si_w rfl (by decide) (by decide) rfl rfl rfl rfl (Or.inl rfl)

/-- Counterexample for C2 as stated: for a Go-identified process
(`get_go_version() != 0`), an event that repeats the stored direction and
message type of its valid session still gets `data_seq = seq + 1 = 10`
instead of reusing the stored `seq = 9`, because `trace_process` (and with
it the `keep_data_seq` logic) is skipped for Go processes. -/
theorem data_submit_seq_go_counterexample :
    conn_w.direction = si_w.direction ∧
    conn_w.message_type = si_w.msg_type ∧
    si_w.uid ≠ 0 ∧ si_w.seq = 9 ∧
    (data_submit kst0 (some conn_w) args_w false 10 5 extra_plain 77
      senv_go).appended.map socket_data.data_seq = some 10 := by
  refine ⟨rfl, rfl, by decide, rfl, ?_⟩
  rfl

/-! ### Claim C3 -/

/-- Equation form of the `trace_uid` component of `data_submit_emit_state`. -/
theorem data_submit_emit_uid (st1 : kern_state) (conn : conn_info_t)
    (args : data_args_t) (vecs : Bool) (syscall_len time_stamp : Nat)
    (extra : process_data_extra) (pid_tgid : Nat) (env : submit_env)
    (v_uid v_seq ttid tcp_seq : Nat) :
    (data_submit_emit st1 conn args vecs syscall_len time_stamp extra
        pid_tgid env v_uid v_seq ttid tcp_seq).st.trace_uid = st1.trace_uid :=
  (data_submit_emit_state st1 conn args vecs syscall_len time_stamp extra
    pid_tgid env v_uid v_seq ttid tcp_seq).2.2.1

/-- Every `data_submit` call that finds no valid session creates an entry
with `uid = socket_id counter + 1` — except `MSG_PRESTORE`, which zeroes
the uid — and increments the counter either way. -/
theorem data_submit_uid_creation
    (st : kern_state) (conn : conn_info_t) (args : data_args_t) (vecs : Bool)
    (syscall_len time_stamp0 pid_tgid : Nat) (extra : process_data_extra)
    (env : submit_env)
    (hinv : is_socket_info_valid conn.socket_info_ptr = false)
    (hgotls : extra.go = false)
    (hsk : conn.sk_nonnull = true)
    (hmsg : conn.message_type = MSG_REQUEST ∨ conn.message_type = MSG_RESPONSE ∨
      conn.message_type = MSG_PRESTORE ∨ conn.message_type = MSG_RECONFIRM) :
    (data_submit st (some conn) args vecs syscall_len time_stamp0 extra
        pid_tgid env).st.trace_uid.socket_id =
      (st.trace_uid.socket_id + 1) % U64 ∧
    (∃ e, (data_submit st (some conn) args vecs syscall_len time_stamp0 extra
        pid_tgid env).st.socket_info_map
          (gen_conn_key_id (pid_tgid / 2 ^ 32) conn.fd) = some e ∧
      e.uid = (if conn.message_type = MSG_PRESTORE then 0
        else (st.trace_uid.socket_id + 1) % U64)) := by
  rcases hmsg with hm | hm | hm | hm <;>
    cases hps : conn.socket_info_ptr with
  | none =>
    rw [hps] at hinv
    simp only [data_submit, hgotls, hsk, hm, hps, hinv,
      MSG_UNKNOWN, MSG_REQUEST, MSG_RESPONSE, MSG_PRESTORE, MSG_RECONFIRM,
      MSG_CLEAR]
    simp [data_submit_emit_map, data_submit_emit_uid]
    exact ⟨_, map_update_self _ _ _, rfl⟩
  | some s =>
    rw [hps] at hinv
    simp only [data_submit, hgotls, hsk, hm, hps, hinv,
      MSG_UNKNOWN, MSG_REQUEST, MSG_RESPONSE, MSG_PRESTORE, MSG_RECONFIRM,
      MSG_CLEAR]
    simp [data_submit_emit_map, data_submit_emit_uid]
    exact ⟨_, map_update_self _ _ _, rfl⟩

/-- Every `data_submit` call on an existing valid session leaves both the
session's `uid` and the socket_id counter unchanged. -/
theorem data_submit_uid_preserved
    (st : kern_state) (conn : conn_info_t) (args : data_args_t) (vecs : Bool)
    (syscall_len time_stamp0 pid_tgid : Nat) (extra : process_data_extra)
    (env : submit_env) (s : socket_info_t)
    (hptr : conn.socket_info_ptr = some s)
    (huid : s.uid ≠ 0)
    (halias : st.socket_info_map
      (gen_conn_key_id (pid_tgid / 2 ^ 32) conn.fd) = some s)
    (hgotls : extra.go = false)
    (hsk : conn.sk_nonnull = true)
    (hmsg : conn.message_type = MSG_REQUEST ∨ conn.message_type = MSG_RESPONSE ∨
      conn.message_type = MSG_PRESTORE ∨ conn.message_type = MSG_RECONFIRM) :
    (data_submit st (some conn) args vecs syscall_len time_stamp0 extra
        pid_tgid env).st.trace_uid.socket_id = st.trace_uid.socket_id ∧
    (∃ e, (data_submit st (some conn) args vecs syscall_len time_stamp0 extra
        pid_tgid env).st.socket_info_map
          (gen_conn_key_id (pid_tgid / 2 ^ 32) conn.fd) = some e ∧
      e.uid = s.uid) := by
  have hvalid : is_socket_info_valid (some s) = true := by
    simp [is_socket_info_valid, huid]
  rcases hmsg with hm | hm | hm | hm <;>
    simp only [data_submit, hgotls, hsk, hm, hptr, hvalid,
      MSG_UNKNOWN, MSG_REQUEST, MSG_RESPONSE, MSG_PRESTORE, MSG_RECONFIRM,
      MSG_CLEAR] <;>
    simp [data_submit_emit_map, data_submit_emit_uid] <;>
    first
      | exact ⟨s, halias, rfl⟩
      | · by_cases hegr : conn.direction = T_EGRESS ∧ ¬ s.trace_id = 0
          · simp only [hegr, if_true, reduceIte]
            exact ⟨_, map_update_self _ _ _, rfl⟩
          · simp only [hegr, if_false, reduceIte]
            by_cases hpeer : ¬ s.peer_fd = 0 ∧ conn.direction = T_INGRESS
            · rw [if_pos hpeer]
              obtain ⟨e, he, _, hu, _, _, _⟩ := socket_info_peer_update_lookup
                _ (gen_conn_key_id (pid_tgid / 4294967296) s.peer_fd) _
                (gen_conn_key_id (pid_tgid / 4294967296) conn.fd) _
                (map_update_self _ _ _)
              exact ⟨e, he, hu.trans rfl⟩
            · rw [if_neg hpeer]
              exact ⟨_, map_update_self _ _ _, rfl⟩

/-- Per-cpu uid streams seeded by `trace_uid_seed` never collide while each
cpu has allocated at most `2^56 - 1 - time_ns/100` uids (the masked time
term equals `time_ns / 100` whenever the latter fits in 56 bits). -/
theorem trace_uid_seed_disjoint (cpu cpu' boot j j' : Nat)
    (_hc : cpu < 256) (_hc' : cpu' < 256) (hb : boot / 100 < 2 ^ 56)
    (hj1 : 1 ≤ j) (hj2 : j ≤ 2 ^ 56 - 1 - boot / 100)
    (hk1 : 1 ≤ j') (hk2 : j' ≤ 2 ^ 56 - 1 - boot / 100)
    (hne : cpu ≠ cpu' ∨ j ≠ j') :
    trace_uid_seed cpu boot + j ≠ trace_uid_seed cpu' boot + j' := by
  have hseed : ∀ c : Nat, trace_uid_seed c boot = 2 ^ 56 * c + boot / 100 := by
    intro c
    unfold trace_uid_seed
    have hmask : (boot / 100) &&& 0xffffffffffffff = boot / 100 % 2 ^ 56 :=
      Nat.and_pow_two_sub_one_eq_mod (boot / 100) 56
    rw [hmask, Nat.mod_eq_of_lt hb, Nat.shiftLeft_eq, Nat.mul_comm c (2 ^ 56),
      ← Nat.mul_add_lt_is_or hb c]
  rw [hseed, hseed]
  have h56 : (2 : Nat) ^ 56 = 72057594037927936 := by norm_num
  rw [h56] at hb hj2 hk2 ⊢
  omega

/-- Claim C3 (amended): the per-cpu socket_id counter is seeded with
`(cpu_id << 56) | ((realtime_ns / 100) & (2^56 - 1))`; every creation of a new
`SocketInfo` entry in `data_submit` increments the counter and assigns
`uid = counter + 1` — except a `MSG_PRESTORE` creation, which the original
claim missed: it still increments the counter but stores `uid = 0` — so
within the stated per-cpu allocation bounds no two sessions on any cpus
ever receive the same nonzero uid, and the uid of an existing valid
session never changes. -/
theorem socket_uid_allocation :
    (∀ (st : kern_state) (conn : conn_info_t) (args : data_args_t)
       (vecs : Bool) (syscall_len time_stamp0 pid_tgid : Nat)
       (extra : process_data_extra) (env : submit_env),
      is_socket_info_valid conn.socket_info_ptr = false →
      extra.go = false → conn.sk_nonnull = true →
      (conn.message_type = MSG_REQUEST ∨ conn.message_type = MSG_RESPONSE ∨
       conn.message_type = MSG_PRESTORE ∨ conn.message_type = MSG_RECONFIRM) →
      ((data_submit st (some conn) args vecs syscall_len time_stamp0 extra
          pid_tgid env).st.trace_uid.socket_id =
        (st.trace_uid.socket_id + 1) % U64 ∧
       ∃ e, (data_submit st (some conn) args vecs syscall_len time_stamp0
          extra pid_tgid env).st.socket_info_map
            (gen_conn_key_id (pid_tgid / 2 ^ 32) conn.fd) = some e ∧
         e.uid = (if conn.message_type = MSG_PRESTORE then 0
           else (st.trace_uid.socket_id + 1) % U64))) ∧
    (∀ (st : kern_state) (conn : conn_info_t) (args : data_args_t)
       (vecs : Bool) (syscall_len time_stamp0 pid_tgid : Nat)
       (extra : process_data_extra) (env : submit_env) (s : socket_info_t),
      conn.socket_info_ptr = some s → s.uid ≠ 0 →
      st.socket_info_map (gen_conn_key_id (pid_tgid / 2 ^ 32) conn.fd) =
        some s →
      extra.go = false → conn.sk_nonnull = true →
      (conn.message_type = MSG_REQUEST ∨ conn.message_type = MSG_RESPONSE ∨
       conn.message_type = MSG_PRESTORE ∨ conn.message_type = MSG_RECONFIRM) →
      ((data_submit st (some conn) args vecs syscall_len time_stamp0 extra
          pid_tgid env).st.trace_uid.socket_id = st.trace_uid.socket_id ∧
       ∃ e, (data_submit st (some conn) args vecs syscall_len time_stamp0
          extra pid_tgid env).st.socket_info_map
            (gen_conn_key_id (pid_tgid / 2 ^ 32) conn.fd) = some e ∧
         e.uid = s.uid)) ∧
    (∀ cpu cpu' boot j j' : Nat, cpu < 256 → cpu' < 256 →
      boot / 100 < 2 ^ 56 →
      1 ≤ j → j ≤ 2 ^ 56 - 1 - boot / 100 →
      1 ≤ j' → j' ≤ 2 ^ 56 - 1 - boot / 100 →
      (cpu ≠ cpu' ∨ j ≠ j') →
      trace_uid_seed cpu boot + j ≠ trace_uid_seed cpu' boot + j') :=
  ⟨fun st conn args vecs sl ts pid extra env h1 h2 h3 h4 =>
    data_submit_uid_creation st conn args vecs sl ts pid extra env h1 h2 h3 h4,
   fun st conn args vecs sl ts pid extra env s h1 h2 h3 h4 h5 h6 =>
    data_submit_uid_preserved st conn args vecs sl ts pid extra env s h1 h2
      h3 h4 h5 h6,
   fun cpu cpu' boot j j' h1 h2 h3 h4 h5 h6 h7 h8 =>
    trace_uid_seed_disjoint cpu cpu' boot j j' h1 h2 h3 h4 h5 h6 h7 h8⟩

/-- A fresh connection (no stored session): egress HTTP request on fd 7. -/
def conn_new : conn_info_t :=
  { conn_w with socket_info_ptr := none }

/-- A tracer state whose `socket_info_map` holds the session `si_w` under
the key of process 0 / fd 7. -/
def kst_w : kern_state :=
  { kst0 with socket_info_map := fun k => if k = 7 then some si_w else none }

/-- Witness for C3: a fresh-session creation takes uid 9001 and bumps the
counter; an event on the stored session keeps uid 5 and the counter; two
cpu uid streams seeded at realtime 1.7e18 ns never collide. -/
theorem socket_uid_allocation_witness :
    ((data_submit kst0 (some conn_new) args_w false 10 5 extra_plain 77
        senv0).st.trace_uid.socket_id =
      (kst0.trace_uid.socket_id + 1) % U64 ∧
     ∃ e, (data_submit kst0 (some conn_new) args_w false 10 5 extra_plain 77
        senv0).st.socket_info_map
          (gen_conn_key_id (77 / 2 ^ 32) conn_new.fd) = some e ∧
       e.uid = (if conn_new.message_type = MSG_PRESTORE then 0
         else (kst0.trace_uid.socket_id + 1) % U64)) ∧
    ((data_submit kst_w (some conn_w) args_w false 10 5 extra_plain 77
        senv0).st.trace_uid.socket_id = kst_w.trace_uid.socket_id ∧
     ∃ e, (data_submit kst_w (some conn_w) args_w false 10 5 extra_plain 77
        senv0).st.socket_info_map
          (gen_conn_key_id (77 / 2 ^ 32) conn_w.fd) = some e ∧
       e.uid = si_w.uid) ∧
    trace_uid_seed 0 1700000000000000000 + 1 ≠
      trace_uid_seed 1 1700000000000000000 + 1 :=
  ⟨socket_uid_allocation.1 kst0 conn_new args_w false 10 5 77 extra_plain
     senv0 rfl rfl rfl (Or.inl rfl),
   socket_uid_allocation.2.1 kst_w conn_w args_w false 10 5 77 extra_plain
     senv0 si_w rfl (by decide) (by decide) rfl rfl (Or.inl rfl),
   socket_uid_allocation.2.2 0 1 1700000000000000000 1 1 (by decide)
     (by decide) (by decide) (by decide) (by decide) (by decide) (by decide)
     (Or.inl (by decide))⟩

/-- A `MSG_PRESTORE` event on a fresh connection (the MySQL/Kafka 4-byte
stash). -/
def conn_pre : conn_info_t :=
  { conn_w with
    socket_info_ptr := none,
    message_type := MSG_PRESTORE,
    prev_buf := 3735928559 }

/-- Counterexample for C3 as stated: a `MSG_PRESTORE` event creates a new
`socket_info_map` entry whose uid is 0, not `counter + 1 = 9001`, though
the counter is still incremented. -/
theorem data_submit_prestore_uid_counterexample :
    ((data_submit kst0 (some conn_pre) args_w false 4 5 extra_plain 77
        senv0).st.socket_info_map 7).map socket_info_t.uid = some 0 ∧
    (data_submit kst0 (some conn_pre) args_w false 4 5 extra_plain 77
      senv0).st.trace_uid.socket_id = 9001 ∧
    (0 : Nat) ≠ 9000 + 1 := by
  refine ⟨rfl, rfl, by decide⟩

/-! ### Claim C8 -/

set_option maxHeartbeats 1000000 in
/-- Claim C8: `MSG_PRESTORE` and `MSG_RECONFIRM` events make `data_submit`
create (when no valid session exists — for PRESTORE storing the 4 stashed
payload bytes in `prev_data` with `prev_data_len = 4` and `uid = 0`) or
leave (when a valid session exists) the `socket_info_map` entry, and
return before touching the staging buffer, so no record is emitted;
`MSG_CLEAR` deletes the session's entry and emits nothing. -/
theorem data_submit_prestore_reconfirm_clear
    (st : kern_state) (conn : conn_info_t) (args : data_args_t) (vecs : Bool)
    (syscall_len time_stamp0 pid_tgid : Nat) (extra : process_data_extra)
    (env : submit_env)
    (hsk : conn.sk_nonnull = true)
    (hgotls : extra.go = false) :
    ((conn.message_type = MSG_PRESTORE ∨ conn.message_type = MSG_RECONFIRM) →
      (data_submit st (some conn) args vecs syscall_len time_stamp0 extra
          pid_tgid env).appended = none ∧
      (data_submit st (some conn) args vecs syscall_len time_stamp0 extra
          pid_tgid env).flushed = none ∧
      (data_submit st (some conn) args vecs syscall_len time_stamp0 extra
          pid_tgid env).st.buf = st.buf ∧
      (is_socket_info_valid conn.socket_info_ptr = false →
        ∃ e, (data_submit st (some conn) args vecs syscall_len time_stamp0
            extra pid_tgid env).st.socket_info_map
              (gen_conn_key_id (pid_tgid / 2 ^ 32) conn.fd) = some e ∧
          (conn.message_type = MSG_PRESTORE →
            e.prev_data = conn.prev_buf ∧ e.prev_data_len = 4 ∧ e.uid = 0)) ∧
      (is_socket_info_valid conn.socket_info_ptr = true →
        (data_submit st (some conn) args vecs syscall_len time_stamp0 extra
          pid_tgid env).st.socket_info_map = st.socket_info_map)) ∧
    (conn.message_type = MSG_CLEAR →
      (data_submit st (some conn) args vecs syscall_len time_stamp0 extra
          pid_tgid env).appended = none ∧
      (data_submit st (some conn) args vecs syscall_len time_stamp0 extra
          pid_tgid env).flushed = none ∧
      (data_submit st (some conn) args vecs syscall_len time_stamp0 extra
          pid_tgid env).st.buf = st.buf ∧
      (conn.socket_info_ptr ≠ none →
        (data_submit st (some conn) args vecs syscall_len time_stamp0 extra
          pid_tgid env).st.socket_info_map
            (gen_conn_key_id (pid_tgid / 2 ^ 32) conn.fd) = none) ∧
      (conn.socket_info_ptr = none →
        (data_submit st (some conn) args vecs syscall_len time_stamp0 extra
          pid_tgid env).st.socket_info_map = st.socket_info_map)) := by
  constructor
  · intro hpr
    rcases hpr with hm | hm <;>
      cases hps : conn.socket_info_ptr with
    | none =>
      have hinv : is_socket_info_valid conn.socket_info_ptr = false := by
        rw [hps]; rfl
      rw [hps] at hinv
      simp only [data_submit, hgotls, hsk, hm, hps, hinv,
        MSG_UNKNOWN, MSG_REQUEST, MSG_RESPONSE, MSG_PRESTORE, MSG_RECONFIRM,
        MSG_CLEAR]
      simp
      first
        | exact ⟨_, map_update_self _ _ _, rfl, rfl, rfl⟩
        | exact ⟨_, map_update_self _ _ _⟩
    | some s =>
      by_cases hu : s.uid = 0
      · have hinv : is_socket_info_valid (some s) = false := by
          simp [is_socket_info_valid, hu]
        simp only [data_submit, hgotls, hsk, hm, hps, hinv,
          MSG_UNKNOWN, MSG_REQUEST, MSG_RESPONSE, MSG_PRESTORE, MSG_RECONFIRM,
          MSG_CLEAR]
        simp
        first
        | exact ⟨_, map_update_self _ _ _, rfl, rfl, rfl⟩
        | exact ⟨_, map_update_self _ _ _⟩
      · have hvalid : is_socket_info_valid (some s) = true := by
          simp [is_socket_info_valid, hu]
        simp only [data_submit, hgotls, hsk, hm, hps, hvalid,
          MSG_UNKNOWN, MSG_REQUEST, MSG_RESPONSE, MSG_PRESTORE, MSG_RECONFIRM,
          MSG_CLEAR]
        simp [hvalid]
  · intro hm
    cases hps : conn.socket_info_ptr with
    | none =>
      simp only [data_submit, hgotls, hsk, hm, hps,
        MSG_UNKNOWN, MSG_PRESTORE, MSG_RECONFIRM, MSG_CLEAR,
        delete_socket_info]
      simp
    | some s =>
      simp only [data_submit, hgotls, hsk, hm, hps,
        MSG_UNKNOWN, MSG_PRESTORE, MSG_RECONFIRM, MSG_CLEAR,
        delete_socket_info]
      simp [map_delete]

/-- A `MSG_CLEAR` event on the stored session. -/
def conn_clear : conn_info_t :=
  { conn_w with message_type := MSG_CLEAR }

/-- Witness for C8: a PRESTORE on a fresh connection emits nothing and
stashes its 4 bytes with uid 0; a CLEAR on the stored session deletes it. -/
theorem data_submit_prestore_reconfirm_clear_witness :
    (data_submit kst0 (some conn_pre) args_w false 4 5 extra_plain 77
        senv0).appended = none ∧
    (∃ e, (data_submit kst0 (some conn_pre) args_w false 4 5 extra_plain 77
        senv0).st.socket_info_map
          (gen_conn_key_id (77 / 2 ^ 32) conn_pre.fd) = some e ∧
      (conn_pre.message_type = MSG_PRESTORE →
        e.prev_data = conn_pre.prev_buf ∧ e.prev_data_len = 4 ∧
        e.uid = 0)) ∧
    (data_submit kst_w (some conn_clear) args_w false 10 5 extra_plain 77
        senv0).st.socket_info_map
          (gen_conn_key_id (77 / 2 ^ 32) conn_clear.fd) = none :=
  ⟨((data_submit_prestore_reconfirm_clear kst0 conn_pre args_w false 4 5 77
      extra_plain senv0 rfl rfl).1 (Or.inl rfl)).1,
   ((data_submit_prestore_reconfirm_clear kst0 conn_pre args_w false 4 5 77
      extra_plain senv0 rfl rfl).1 (Or.inl rfl)).2.2.2.1 rfl,
   ((data_submit_prestore_reconfirm_clear kst_w conn_clear args_w false 10 5
      77 extra_plain senv0 rfl rfl).2 rfl).2.2.2.1 (by decide)⟩

/-! ### Claim C7 -/

/-- `infer_tcp_seq_offset` never touches the `ready` flag. -/
theorem infer_tcp_seq_offset_ready (off : member_fields_offset)
    (env : infer_env) :
    (infer_tcp_seq_offset off env).ready = off.ready := by
  simp only [infer_tcp_seq_offset]
  split_ifs <;> rfl

/-- `infer_offset_step` can only leave `ready` nonzero when all four
inferred offsets are nonzero. -/
theorem infer_offset_step_sets_ready (off0 : member_fields_offset)
    (env : infer_env) (h0 : off0.ready = 0)
    (h : (infer_offset_step off0 env).ready ≠ 0) :
    (infer_offset_step off0 env).tcp_sock__copied_seq_offset ≠ 0 ∧
    (infer_offset_step off0 env).tcp_sock__write_seq_offset ≠ 0 ∧
    (infer_offset_step off0 env).sock__flags_offset ≠ 0 ∧
    (infer_offset_step off0 env).task__files_offset ≠ 0 := by
  unfold infer_offset_step at h ⊢
  simp only [h0, reduceIte] at h ⊢
  split_ifs at h ⊢ <;> simp_all [infer_tcp_seq_offset_ready]

/-- Claim C7: while `offset->ready == 0` every path through `process_data`
returns without classifying, appending or emitting anything and leaves the
state untouched, and `infer_offset_retry` returns `OFFSET_READY` only once
all four inferred offsets (copied_seq, write_seq, sock flags, task files)
are nonzero in the resulting per-cpu offset struct. -/
theorem offset_gate_no_emission :
    (∀ (st : kern_state) (env : probe_env) (id direction : Nat)
       (args : data_args_t) (bytes_count : Int) (extra : process_data_extra),
      st.offset.ready = 0 →
      ((process_data st env id direction args bytes_count extra).st = st ∧
       (process_data st env id direction args bytes_count extra).classified
         = false ∧
       (process_data st env id direction args bytes_count extra).appended
         = none ∧
       (process_data st env id direction args bytes_count extra).flushed
         = none)) ∧
    (∀ (off : member_fields_offset) (env : infer_env),
      off.ready = 0 → (infer_offset_retry off env).1 = OFFSET_READY →
      ((infer_offset_retry off env).2.tcp_sock__copied_seq_offset ≠ 0 ∧
       (infer_offset_retry off env).2.tcp_sock__write_seq_offset ≠ 0 ∧
       (infer_offset_retry off env).2.sock__flags_offset ≠ 0 ∧
       (infer_offset_retry off env).2.task__files_offset ≠ 0)) := by
  constructor
  · intro st env id direction args bc extra hready
    simp only [process_data]
    split
    · exact ⟨rfl, rfl, rfl, rfl⟩
    · split
      · exact ⟨rfl, rfl, rfl, rfl⟩
      · split
        · exact ⟨rfl, rfl, rfl, rfl⟩
        · exact ⟨rfl, rfl, rfl, rfl⟩
  · intro off env h0 hres
    unfold infer_offset_retry at hres ⊢
    by_cases hr : (infer_offset_step off env).ready = 0
    · rw [if_pos hr] at hres
      simp [OFFSET_NO_READY, OFFSET_READY] at hres
    · simp only [hr, reduceIte]
      exact infer_offset_step_sets_ready off env h0 hr


/-- Offsets not yet ready. -/
def off_zero : member_fields_offset :=
  { ready := 0, task__files_offset := 0, sock__flags_offset := 0,
    tcp_sock__copied_seq_offset := 0, tcp_sock__write_seq_offset := 0 }

/-- A tracer state before offset inference has converged. -/
def kst_nr : kern_state := { kst0 with offset := off_zero }

/-- An inference environment that learns all three probed offsets at once
(the task files offset is already known). -/
def off_learn : member_fields_offset :=
  { ready := 0, task__files_offset := 5, sock__flags_offset := 0,
    tcp_sock__copied_seq_offset := 0, tcp_sock__write_seq_offset := 0 }

def ienv_w : infer_env :=
  { infer_sk := true, found_sock_flags := 3, found_copied_seq := 4,
    found_write_seq := 6 }

/-- Witness for C7: with `ready = 0` a concrete write probe drops its
event, and a concrete inference run that returns `OFFSET_READY` has all
four offsets filled in. -/
theorem offset_gate_no_emission_witness :
    ((process_data kst_nr penv0 77 T_EGRESS args_w 10 extra_plain).st =
        kst_nr ∧
      (process_data kst_nr penv0 77 T_EGRESS args_w 10
        extra_plain).classified = false ∧
      (process_data kst_nr penv0 77 T_EGRESS args_w 10
        extra_plain).appended = none ∧
      (process_data kst_nr penv0 77 T_EGRESS args_w 10
        extra_plain).flushed = none) ∧
    ((infer_offset_retry off_learn ienv_w).2.tcp_sock__copied_seq_offset
        ≠ 0 ∧
      (infer_offset_retry off_learn ienv_w).2.tcp_sock__write_seq_offset
        ≠ 0 ∧
      (infer_offset_retry off_learn ienv_w).2.sock__flags_offset ≠ 0 ∧
      (infer_offset_retry off_learn ienv_w).2.task__files_offset ≠ 0) :=
  ⟨offset_gate_no_emission.1 kst_nr penv0 77 T_EGRESS args_w 10 extra_plain
     rfl,
   offset_gate_no_emission.2 off_learn ienv_w rfl (by decide)⟩

/-! ### Claim C5 -/

/-- A record captured at kernel time 10^12 ns (about 16.7 minutes of
uptime), as `data_submit` stamps it: `v->timestamp` holds nanoseconds. -/
def v_fresh : socket_data :=
  { pid := 1, tgid := 1, coroutine_id := 0, socket_id := 1, addr_len := 4,
    l4_protocol := IPPROTO_TCP, dport := 80, sport := 1, extra_data := 0,
    extra_data_count := 0, tcp_seq := 0, thread_trace_id := 0,
    timestamp := 10 ^ 12, direction := 0, msg_type := 1, syscall_len := 10,
    data_seq := 0, data_type := PROTO_HTTP1, data_len := 10 }

/-- A staging buffer holding that single pending record. -/
def kst_tick : kern_state :=
  { kst0 with buf := { events_num := 1, len := 137, recs := [v_fresh] } }

/-- Claim C5 (code bug): the periodic `sys_enter_getppid` tick is supposed
to flush only when the oldest event is at least one second old, but
`data_submit` stores `v->timestamp` in nanoseconds while the tick computes
`bpf_ktime_get_ns() - v->timestamp * NS_PER_US`, treating the field as
microseconds; the `u64` subtraction wraps around and exceeds `NS_PER_SEC`
for any realistic uptime, so a tick one millisecond after the event — far
less than one second — already flushes the buffer. -/
theorem getppid_tick_flushes_fresh_event :
    (sys_enter_getppid kst_tick (10 ^ 12 + 10 ^ 6)).2 = some [v_fresh] ∧
    (10 ^ 12 + 10 ^ 6) - v_fresh.timestamp < NS_PER_SEC ∧
    (sys_enter_getppid kst_tick (10 ^ 12 + 10 ^ 6)).1.buf.events_num = 0 := by
  refine ⟨rfl, by decide, rfl⟩

/-! ### Claim C9 -/

/-- Claim C9: entering `close(fd)` with offsets ready and an fd that
resolves to a socket deletes the `SocketInfo` entry keyed by
`(tgid << 32) | fd` from `socket_info_map` and decrements
`socket_map_count`, so a subsequent lookup of that conn key finds
nothing. -/
theorem sys_enter_close_evicts (st : kern_state) (ienv : infer_env)
    (sock_addr pid_tgid fd : Nat) (si : socket_info_t)
    (hready : st.offset.ready ≠ 0)
    (hsock : sock_addr ≠ 0)
    (hsi : st.socket_info_map (gen_conn_key_id (pid_tgid / 2 ^ 32) fd) =
      some si)
    (hcnt : 1 ≤ st.stats.socket_map_count)
    (hcnt2 : st.stats.socket_map_count < U64) :
    (sys_enter_close st ienv sock_addr pid_tgid fd).socket_info_map
        (gen_conn_key_id (pid_tgid / 2 ^ 32) fd) = none ∧
    (sys_enter_close st ienv sock_addr pid_tgid fd).stats.socket_map_count =
      st.stats.socket_map_count - 1 := by
  have hstep : infer_offset_step st.offset ienv = st.offset := by
    unfold infer_offset_step
    simp [hready]
  have hretry : infer_offset_retry st.offset ienv = (OFFSET_READY, st.offset) := by
    unfold infer_offset_retry
    rw [hstep]
    simp [hready]
  unfold sys_enter_close
  rw [hretry]
  simp only [OFFSET_READY, OFFSET_NO_READY, reduceIte, one_ne_zero, hsock,
    ne_eq, not_false_iff, if_true]
  rw [hsi]
  simp only [delete_socket_info]
  constructor
  · exact map_delete_self _ _
  · have : (st.stats.socket_map_count + U64 - 1) % U64 =
        st.stats.socket_map_count - 1 := by
      have h64 : U64 = 18446744073709551616 := by norm_num [U64]
      rw [h64] at hcnt2 ⊢
      omega
    simpa using this

/-- A state with the stored session and a socket-map count of 1. -/
def kst_c9 : kern_state :=
  { kst_w with stats := { socket_map_count := 1, trace_map_count := 0 } }

/-- Witness for C9: closing fd 7 of process 0 deletes the stored session
and drops the count from 1 to 0. -/
theorem sys_enter_close_evicts_witness :
    (sys_enter_close kst_c9 ienv_w 555 77 7).socket_info_map
        (gen_conn_key_id (77 / 2 ^ 32) 7) = none ∧
    (sys_enter_close kst_c9 ienv_w 555 77 7).stats.socket_map_count =
      kst_c9.stats.socket_map_count - 1 :=
  sys_enter_close_evicts kst_c9 ienv_w 555 77 7 si_w (by decide) (by decide)
    (by decide) (by decide) (by decide)

theorem toInt32_nonpos (x : Int) (h1 : -(2 ^ 31) < x) (h2 : x ≤ 0) :
    toInt32 x ≤ 0 := by
  unfold toInt32
  rw [Int.emod_eq_of_lt (by omega) (by omega)]
  omega

theorem process_data_nonpos (st : kern_state) (env : probe_env)
    (id dir : Nat) (args : data_args_t) (bc : Int)
    (extra : process_data_extra) (htb : toInt32 bc ≤ 0) :
    (process_data st env id dir args bc extra).st = st ∧
    (process_data st env id dir args bc extra).classified = false ∧
    (process_data st env id dir args bc extra).appended = none ∧
    (process_data st env id dir args bc extra).flushed = none := by
  simp only [process_data]
  split
  · exact ⟨rfl, rfl, rfl, rfl⟩
  · split
    · exact ⟨rfl, rfl, rfl, rfl⟩
    · rw [if_pos (Or.inr htb)]
      exact ⟨rfl, rfl, rfl, rfl⟩

/-- A stashed args record with fd 2 (stderr), otherwise identical to a
normal plain-buffer stash. -/
def args_fd2 : data_args_t :=
  { source_fn := 0, fd := 2, buf_null := false, iov_null := false,
    iovlen := 1, enter_ts := 5 }

/-- A syscall-level state whose thread 42 has args with fd 2 stashed in
both the write and the read map, over the quiet kernel state. -/
def s_c6 : sys_state :=
  { k := kst0,
    active_write_args := fun k => if k = 42 then some args_fd2 else none,
    active_read_args := fun k => if k = 42 then some args_fd2 else none }

/-- **C6.** Validation in the syscall exit handlers.  The first two
conjuncts: `sys_exit_write` and `sys_exit_read` skip processing entirely
(no classification, no record, kernel state untouched) when the stashed
fd is 2 or less, for any return value.  The remaining ten conjuncts:
every one of the ten exit handlers drops the event (no classification,
no record, kernel state untouched) when the syscall returned zero or a
negative value that fits in 32 bits.  The other eight handlers have no
fd check; see the counterexample. -/
theorem exit_handlers_validation (s : sys_state) (env : probe_env)
    (mb : Int) (id : Nat) (ret : Int) (wa ra : data_args_t)
    (hwa : s.active_write_args id = some wa)
    (hra : s.active_read_args id = some ra)
    (h1 : -(2 ^ 31) < ret) (h2 : ret ≤ 0) :
    ((∀ r : Int, wa.fd ≤ 2 →
      (sys_exit_write s env id r).classified = false ∧
      (sys_exit_write s env id r).appended = none ∧
      (sys_exit_write s env id r).s.k = s.k) ∧
     (∀ r : Int, ra.fd ≤ 2 →
      (sys_exit_read s env id r).classified = false ∧
      (sys_exit_read s env id r).appended = none ∧
      (sys_exit_read s env id r).s.k = s.k)) ∧
    ((sys_exit_write s env id ret).classified = false ∧
     (sys_exit_write s env id ret).appended = none ∧
     (sys_exit_write s env id ret).s.k = s.k) ∧
    ((sys_exit_read s env id ret).classified = false ∧
     (sys_exit_read s env id ret).appended = none ∧
     (sys_exit_read s env id ret).s.k = s.k) ∧
    ((sys_exit_sendto s env id ret).classified = false ∧
     (sys_exit_sendto s env id ret).appended = none ∧
     (sys_exit_sendto s env id ret).s.k = s.k) ∧
    ((sys_exit_recvfrom s env id ret).classified = false ∧
     (sys_exit_recvfrom s env id ret).appended = none ∧
     (sys_exit_recvfrom s env id ret).s.k = s.k) ∧
    ((sys_exit_sendmsg s env id ret).classified = false ∧
     (sys_exit_sendmsg s env id ret).appended = none ∧
     (sys_exit_sendmsg s env id ret).s.k = s.k) ∧
    ((sys_exit_sendmmsg s env mb id ret).classified = false ∧
     (sys_exit_sendmmsg s env mb id ret).appended = none ∧
     (sys_exit_sendmmsg s env mb id ret).s.k = s.k) ∧
    ((sys_exit_recvmsg s env id ret).classified = false ∧
     (sys_exit_recvmsg s env id ret).appended = none ∧
     (sys_exit_recvmsg s env id ret).s.k = s.k) ∧
    ((sys_exit_recvmmsg s env mb id ret).classified = false ∧
     (sys_exit_recvmmsg s env mb id ret).appended = none ∧
     (sys_exit_recvmmsg s env mb id ret).s.k = s.k) ∧
    ((sys_exit_writev s env id ret).classified = false ∧
     (sys_exit_writev s env id ret).appended = none ∧
     (sys_exit_writev s env id ret).s.k = s.k) ∧
    ((sys_exit_readv s env id ret).classified = false ∧
     (sys_exit_readv s env id ret).appended = none ∧
     (sys_exit_readv s env id ret).s.k = s.k) := by
  have hng : ¬ toInt32 ret > 0 := by
    have := toInt32_nonpos ret h1 h2
    omega
  have hnp := toInt32_nonpos ret h1 h2
  refine ⟨⟨?_, ?_⟩, ?_, ?_, ?_, ?_, ?_, ?_, ?_, ?_, ?_, ?_⟩
  · intro r hfd
    unfold sys_exit_write handler_finish
    simp only [hwa]
    rw [if_neg (by omega : ¬ wa.fd > 2)]
    exact ⟨rfl, rfl, rfl⟩
  · intro r hfd
    unfold sys_exit_read handler_finish
    simp only [hra]
    rw [if_neg (by omega : ¬ ra.fd > 2)]
    exact ⟨rfl, rfl, rfl⟩
  · unfold sys_exit_write handler_finish
    simp only [hwa]
    by_cases hfd : wa.fd > 2
    · rw [if_pos hfd]
      have hp := process_data_nonpos s.k env id T_EGRESS wa ret extra_plain hnp
      exact ⟨hp.2.1, hp.2.2.1, hp.1⟩
    · rw [if_neg hfd]
      exact ⟨rfl, rfl, rfl⟩
  · unfold sys_exit_read handler_finish
    simp only [hra]
    by_cases hfd : ra.fd > 2
    · rw [if_pos hfd]
      have hp := process_data_nonpos s.k env id T_INGRESS ra ret extra_plain hnp
      exact ⟨hp.2.1, hp.2.2.1, hp.1⟩
    · rw [if_neg hfd]
      exact ⟨rfl, rfl, rfl⟩
  · unfold sys_exit_sendto handler_finish
    simp only [hwa]
    have hp := process_data_nonpos s.k env id T_EGRESS wa ret extra_plain hnp
    exact ⟨hp.2.1, hp.2.2.1, hp.1⟩
  · unfold sys_exit_recvfrom handler_finish
    simp only [hra]
    have hp := process_data_nonpos s.k env id T_INGRESS ra ret extra_plain hnp
    exact ⟨hp.2.1, hp.2.2.1, hp.1⟩
  · unfold sys_exit_sendmsg handler_finish
    simp only [hwa]
    have hp := process_data_nonpos s.k env id T_EGRESS wa ret extra_vecs hnp
    exact ⟨hp.2.1, hp.2.2.1, hp.1⟩
  · unfold sys_exit_sendmmsg handler_finish
    simp only [hwa]
    rw [if_neg hng]
    exact ⟨rfl, rfl, rfl⟩
  · unfold sys_exit_recvmsg handler_finish
    simp only [hra]
    have hp := process_data_nonpos s.k env id T_INGRESS ra ret extra_vecs hnp
    exact ⟨hp.2.1, hp.2.2.1, hp.1⟩
  · unfold sys_exit_recvmmsg handler_finish
    simp only [hra]
    rw [if_neg hng]
    exact ⟨rfl, rfl, rfl⟩
  · unfold sys_exit_writev handler_finish
    simp only [hwa]
    have hp := process_data_nonpos s.k env id T_EGRESS wa ret extra_vecs hnp
    exact ⟨hp.2.1, hp.2.2.1, hp.1⟩
  · unfold sys_exit_readv handler_finish
    simp only [hra]
    have hp := process_data_nonpos s.k env id T_INGRESS ra ret extra_vecs hnp
    exact ⟨hp.2.1, hp.2.2.1, hp.1⟩

/-- Witness for `exit_handlers_validation` at the concrete state `s_c6`,
thread 42, return value 0. -/
theorem exit_handlers_validation_witness :
    s_c6.active_write_args 42 = some args_fd2 ∧
    s_c6.active_read_args 42 = some args_fd2 ∧
    -(2 ^ 31) < (0 : Int) ∧ (0 : Int) ≤ 0 ∧
    (sys_exit_sendto s_c6 penv0 42 0).appended = none :=
  ⟨rfl, rfl, by decide, by decide,
   (exit_handlers_validation s_c6 penv0 0 42 0 args_fd2 args_fd2 rfl rfl
     (by decide) (by decide)).2.2.2.2.1.2.1⟩

/-- Counterexample to the fd check in the eight handlers other than
write/read: `sys_exit_sendto` with a stashed fd of 2 and a positive
return still classifies the data and emits a record. -/
theorem sys_exit_sendto_low_fd_counterexample :
    s_c6.active_write_args 42 = some args_fd2 ∧ args_fd2.fd ≤ 2 ∧
    (sys_exit_sendto s_c6 penv0 42 100).classified = true ∧
    (sys_exit_sendto s_c6 penv0 42 100).appended.isSome = true := by
  refine ⟨rfl, by decide, ?_, ?_⟩ <;> decide

/-- **C10.** Stash cleanup in the syscall exit handlers.  After any of
the ten exit handlers runs for thread `id`, the map that stashed that
handler's own arguments (write map for write/sendto/sendmsg/sendmmsg/
writev, read map for read/recvfrom/recvmsg/recvmmsg/readv) has no entry
for `id` any more — and the opposite map is left exactly as it was, so
a handler does not clear the other direction's stash. -/
theorem exit_handlers_delete_own_stash (s : sys_state) (env : probe_env)
    (mb : Int) (id : Nat) (ret : Int) :
    ((sys_exit_write s env id ret).s.active_write_args id = none ∧
     (sys_exit_write s env id ret).s.active_read_args = s.active_read_args) ∧
    ((sys_exit_read s env id ret).s.active_read_args id = none ∧
     (sys_exit_read s env id ret).s.active_write_args = s.active_write_args) ∧
    ((sys_exit_sendto s env id ret).s.active_write_args id = none ∧
     (sys_exit_sendto s env id ret).s.active_read_args = s.active_read_args) ∧
    ((sys_exit_recvfrom s env id ret).s.active_read_args id = none ∧
     (sys_exit_recvfrom s env id ret).s.active_write_args = s.active_write_args) ∧
    ((sys_exit_sendmsg s env id ret).s.active_write_args id = none ∧
     (sys_exit_sendmsg s env id ret).s.active_read_args = s.active_read_args) ∧
    ((sys_exit_sendmmsg s env mb id ret).s.active_write_args id = none ∧
     (sys_exit_sendmmsg s env mb id ret).s.active_read_args = s.active_read_args) ∧
    ((sys_exit_recvmsg s env id ret).s.active_read_args id = none ∧
     (sys_exit_recvmsg s env id ret).s.active_write_args = s.active_write_args) ∧
    ((sys_exit_recvmmsg s env mb id ret).s.active_read_args id = none ∧
     (sys_exit_recvmmsg s env mb id ret).s.active_write_args = s.active_write_args) ∧
    ((sys_exit_writev s env id ret).s.active_write_args id = none ∧
     (sys_exit_writev s env id ret).s.active_read_args = s.active_read_args) ∧
    ((sys_exit_readv s env id ret).s.active_read_args id = none ∧
     (sys_exit_readv s env id ret).s.active_write_args = s.active_write_args) := by
  refine ⟨⟨?_, ?_⟩, ⟨?_, ?_⟩, ⟨?_, ?_⟩, ⟨?_, ?_⟩, ⟨?_, ?_⟩, ⟨?_, ?_⟩,
    ⟨?_, ?_⟩, ⟨?_, ?_⟩, ⟨?_, ?_⟩, ⟨?_, ?_⟩⟩ <;>
    simp [sys_exit_write, sys_exit_read, sys_exit_sendto, sys_exit_recvfrom,
      sys_exit_sendmsg, sys_exit_sendmmsg, sys_exit_recvmsg,
      sys_exit_recvmmsg, sys_exit_writev, sys_exit_readv, handler_finish,
      map_delete]

/-- A syscall-level state whose thread 42 has a stashed read record and
no stashed write record. -/
def s_cx10 : sys_state :=
  { k := kst0,
    active_write_args := fun _ => none,
    active_read_args := fun k => if k = 42 then some args_w else none }

/-- Counterexample to clearing both maps: after `sys_exit_write` runs
for thread 42, the read map still holds thread 42's stashed record. -/
theorem sys_exit_write_leaves_read_stash_counterexample :
    s_cx10.active_read_args 42 = some args_w ∧
    (sys_exit_write s_cx10 penv0 42 100).s.active_read_args 42 =
      some args_w := ⟨rfl, rfl⟩
